import Mathlib

/-!
# Compliance aggregation and geofence validation of `oplistbackend`

A shallow embedding of the compliance and geofence code of the repository
(`src/routes/activities.js`, `src/routes/insights.js`, `src/routes/geofence.js`,
`src/utils/geofence.js` and the Mongoose models under `src/models/`).

Conventions of the embedding.

* The Mongo collections are lists held in a `Store`; `Model.find(query)` is
  `List.filter` with the query as a Boolean predicate, `Model.findById` is
  `List.find?`.
* An `ObjectId` is represented by its hexadecimal string.
* The JavaScript numbers of the compliance code are exact rationals; a
  non-finite number (`NaN`, `Infinity`), which a division by zero produces,
  is `none` of `Option`.  `Math.round x` is `⌊x + 1/2⌋`.
* The numbers of the geofence code are real numbers; a second embedding
  (`calculateDistanceJS`, `isWithinGeofenceJS`) adds the special values `NaN`
  and `±Infinity` and agrees with the first on finite numbers.
* `Array.prototype.sort` is stable; its result is that of insertion sort.
* A `Date` is its millisecond timestamp; the server's local time zone is UTC,
  so a calendar day is a block of `msPerDay` milliseconds.
* A request handler is a function from the store and the request to the
  response and the store after the request; the coordinates of a request and
  of a geofence are rationals, cast to the reals for the distance.
-/

namespace Oplist

/-! ## JavaScript values -/

/-- An `ObjectId`, by its hexadecimal string (`_id.toString()`). -/
abbrev ObjectId := String

/-- `Math.round`: the nearest integer, a half rounded towards `+∞`. -/
def mathRound (x : ℚ) : ℤ := ⌊x + 1 / 2⌋

/-- The quotient `a / b` of two finite numbers; `none` is the non-finite
result (`NaN` or `±Infinity`) of a division by zero. -/
def jsDiv (a b : ℚ) : Option ℚ := if b = 0 then none else some (a / b)

/-- The sum `a + b`, where either operand may be non-finite. -/
def jsAdd (a b : Option ℚ) : Option ℚ :=
  match a, b with
  | some x, some y => some (x + y)
  | _, _ => none

/-- `String.prototype.toLowerCase` (on the ASCII letters). -/
def toLowerCase (s : String) : String := String.mk (s.data.map Char.toLower)

/-- `[...new Set(xs)]`: the distinct elements in order of first occurrence. -/
def newSet (xs : List String) : List String :=
  xs.foldl (fun acc x => if x ∈ acc then acc else acc ++ [x]) []

/-- The values held by the properties of a trend point. -/
inductive JSValue where
  /-- The string `date.toISOString().split('T')[0]`, by its day number since the epoch. -/
  | isoDate (day : Int)
  /-- A number; `none` is `NaN`. -/
  | number (n : Option ℤ)
deriving DecidableEq, Repr

/-- A plain object: its string keys in insertion order, with their values. -/
abbrev JSObject := List (String × JSValue)

/-- The assignment `o[k] = v`. -/
def JSObject.set : JSObject → String → JSValue → JSObject
  | [], k, v => [(k, v)]
  | (k', v') :: rest, k, v =>
    if k' = k then (k, v) :: rest else (k', v') :: JSObject.set rest k v

/-- The read `o[k]`; `none` is `undefined`. -/
def JSObject.get (o : JSObject) (k : String) : Option JSValue :=
  (o.find? (fun kv => kv.1 == k)).map (fun kv => kv.2)

/-- The expression `x || 0`. -/
def orZero : Option JSValue → JSValue
  | none => .number (some 0)
  | some (.number none) => .number (some 0)
  | some (.number (some n)) => .number (some n)
  | some (.isoDate d) => .isoDate d

/-- The step `sum + val` of a numeric `reduce`; adding a date string concatenates,
and the later division of that string is `NaN`, so the step is `none` there. -/
def jsAddValue (sum : Option ℚ) (val : JSValue) : Option ℚ :=
  match val with
  | .number (some n) => jsAdd sum (some (n : ℚ))
  | .number none => none
  | .isoDate _ => none

/-! ## Dates -/

/-- Milliseconds in a calendar day. -/
def msPerDay : Int := 86400000

/-- The update `d.setHours(0, 0, 0, 0)`. -/
def startOfDay (t : Int) : Int := t - t % msPerDay

/-- The update `d.setHours(23, 59, 59, 999)`. -/
def endOfDay (t : Int) : Int := startOfDay t + 86399999

/-- The update `d.setDate(d.getDate() + n)`. -/
def addDays (t : Int) (n : Int) : Int := t + n * msPerDay

/-- The day of `d.toISOString().split('T')[0]`, as a day number. -/
def isoDay (t : Int) : Int := t / msPerDay

/-! ## Data model (`src/models`) -/

/-- An entry of `Checklist.activities` (`activitySchema` of `Checklist.js`). -/
structure ChecklistActivity where
  _id : ObjectId
  name : String
  requiresPhoto : Bool := false
  recurrence : Option String := none
deriving DecidableEq, Repr

/-- The geofence of a checklist (`locationSchema`). -/
structure Location where
  address : String
  latitude : ℚ
  longitude : ℚ
  radius : ℚ := 50
deriving DecidableEq

/-- A checklist definition (`checklistSchema`). -/
structure Checklist where
  _id : ObjectId
  plantId : ObjectId
  name : String
  lane : String
  area : String
  role : String
  activities : List ChecklistActivity
  generalRecurrence : Option String := none
  requiresLocation : Bool := false
  location : Option Location := none
deriving DecidableEq

/-- A completion event (`Activity.js`). -/
structure Activity where
  checklistId : ObjectId
  activityId : ObjectId
  userId : ObjectId
  completedAt : Int
  latitude : Option ℚ := none
  longitude : Option ℚ := none
  photo : Option String := none
deriving DecidableEq

/-- An actor (`userSchema`); `compliance` is `none` when the field is missing. -/
structure User where
  _id : ObjectId
  email : String
  name : String
  role : String := "user"
  lane : Option String := none
  subArea : Option String := none
  roleName : Option String := none
  plantId : Option ObjectId := none
  compliance : Option ℚ := some 0
deriving DecidableEq

/-- A site (`Plant.js`). -/
structure Plant where
  _id : ObjectId
  name : String
deriving DecidableEq, Repr

/-- The collections of the database. -/
structure Store where
  users : List User
  checklists : List Checklist
  activities : List Activity
  plants : List Plant := []
deriving DecidableEq

/-! ## `src/routes/activities.js` -/

deriving instance DecidableEq for Except

/-- The query of `GET /checklists` (lines 28-36) and of `updateUserCompliance`
(lines 166-174): lane, area and role of the user, and the plant when the
user has one. -/
def assignmentQuery (user : User) (c : Checklist) : Bool :=
  (some c.lane == user.lane) && (some c.area == user.subArea) &&
    (some c.role == user.roleName) &&
    (match user.plantId with
     | some p => c.plantId == p
     | none => true)

/-- The query `Checklist.find(query)` for the user. -/
def assignedChecklists (s : Store) (user : User) : List Checklist :=
  s.checklists.filter (assignmentQuery user)

/-- The query `Activity.find` of lines 48-55 and 187-194: the events of the
checklist and the user with `today ≤ completedAt < tomorrow`. -/
def findCompletions (s : Store) (checklistId userId : ObjectId) (today tomorrow : Int) :
    List Activity :=
  s.activities.filter (fun a =>
    (a.checklistId == checklistId) && (a.userId == userId) &&
      decide (today ≤ a.completedAt) && decide (a.completedAt < tomorrow))

/-- The figure `completionPercentage` of `GET /checklists` (lines 57-61). -/
def completionPercentage (completions : List Activity) (checklist : Checklist) : Option ℤ :=
  let completedActivities := completions.length
  let totalActivities := checklist.activities.length
  if totalActivities > 0 then
    (jsDiv completedActivities totalActivities).map (fun q => mathRound (q * 100))
  else some 0

/-- The per-checklist figure `compliance` of `updateUserCompliance` (lines 196-200). -/
def checklistCompliance (todayCompletions : List Activity) (checklist : Checklist) : Option ℚ :=
  let completedActivities := todayCompletions.length
  let totalActivities := checklist.activities.length
  if totalActivities > 0 then
    (jsDiv completedActivities totalActivities).map (fun q => q * 100)
  else some 0

/-- The loop of `updateUserCompliance` (lines 186-204) over the checklists
still to visit, from the current `totalCompliance` and `checklistCount`. -/
def complianceLoop (s : Store) (userId : ObjectId) (today tomorrow : Int) :
    List Checklist → Option ℚ → ℕ → Option ℚ × ℕ
  | [], totalCompliance, checklistCount => (totalCompliance, checklistCount)
  | checklist :: rest, totalCompliance, checklistCount =>
    let todayCompletions := findCompletions s checklist._id userId today tomorrow
    let compliance := checklistCompliance todayCompletions checklist
    complianceLoop s userId today tomorrow rest (jsAdd totalCompliance compliance)
      (checklistCount + 1)

/-- The value `averageCompliance` that `updateUserCompliance` assigns to
`user.compliance` (lines 166-208). -/
def averageCompliance (s : Store) (user : User) (now : Int) : Option ℤ :=
  let userChecklists := assignedChecklists s user
  let today := startOfDay now
  let tomorrow := addDays today 1
  let (totalCompliance, checklistCount) :=
    complianceLoop s user._id today tomorrow userChecklists (some 0) 0
  if checklistCount > 0 then
    (totalCompliance.bind (fun t => jsDiv t checklistCount)).map mathRound
  else some 0

/-- The call `user.save()`: the validators `min: 0`, `max: 100` of
`userSchema.compliance` run, and the document replaces the stored one. -/
def saveUser (s : Store) (user : User) : Except String Store :=
  match user.compliance with
  | some q =>
    if 0 ≤ q ∧ q ≤ 100 then
      .ok { s with users := s.users.map (fun u => if u._id == user._id then user else u) }
    else .error "ValidationError"
  | none => .ok { s with users := s.users.map (fun u => if u._id == user._id then user else u) }

/-- The helper `updateUserCompliance(userId)` run at time `now`. -/
def updateUserCompliance (s : Store) (userId : ObjectId) (now : Int) : Except String Store :=
  match s.users.find? (fun u => u._id == userId) with
  | none => .ok s
  | some user =>
    match averageCompliance s user now with
    | some score => saveUser s { user with compliance := some (score : ℚ) }
    | none => .error "CastError"

/-! ## `src/routes/insights.js` -/

/-- The day count chosen from `period` (lines 78-82). -/
def periodDays (period : String) : ℕ :=
  if period = "day" then 1
  else if period = "week" then 7
  else if period = "month" then 30
  else if period = "year" then 365
  else 30

/-- The query `checklistQuery` (lines 25 and 85): the checklists of the plant
when `plantId` is given and is not `'all'`, every checklist otherwise. -/
def checklistQuery (plantId : Option String) (c : Checklist) : Bool :=
  match plantId with
  | some p => if p != "" && p != "all" then c.plantId == p else true
  | none => true

/-- The list `uniqueLanes` (line 87). -/
def uniqueLanes (allChecklists : List Checklist) : List String :=
  newSet ((allChecklists.map (fun c => c.lane)).filter (fun l => l != ""))

/-- The compliance of one lane on the day `[startOfDay, endOfDay]` (lines 118-155);
the two sums of the inner loop are a fold over `laneChecklists`. -/
def laneCompliance (s : Store) (allChecklists : List Checklist) (lane : String)
    (startOfDay endOfDay : Int) : Option ℤ :=
  let laneChecklists := allChecklists.filter (fun c => c.lane == lane)
  if laneChecklists.length == 0 then some 0
  else
    let checklistIds := laneChecklists.map (fun c => c._id)
    let activities := s.activities.filter (fun a =>
      decide (a.checklistId ∈ checklistIds) && decide (startOfDay ≤ a.completedAt) &&
        decide (a.completedAt ≤ endOfDay))
    let totals := laneChecklists.foldl (fun (acc : ℕ × ℕ) checklist =>
      let totalActivities := checklist.activities.length
      let checklistCompletions := activities.filter (fun a => a.checklistId == checklist._id)
      let uniqueActivityIds := newSet (checklistCompletions.map (fun a => a.activityId))
      (acc.1 + totalActivities, acc.2 + uniqueActivityIds.length)) (0, 0)
    let totalExpected := totals.1
    let totalCompleted := totals.2
    if totalExpected > 0 then
      (jsDiv totalCompleted totalExpected).map (fun q => mathRound (q * 100))
    else some 0

/-- The object `dateData` pushed for the day `i` days before `now` (lines 104-169). -/
def trendPoint (s : Store) (allChecklists : List Checklist) (lanes : List String)
    (now : Int) (i : ℕ) : JSObject :=
  let date := addDays now (-(i : Int))
  let dateData : JSObject := [("date", .isoDate (isoDay date))]
  let dateData := lanes.foldl (fun (o : JSObject) lane =>
    o.set (toLowerCase lane)
      (.number (laneCompliance s allChecklists lane (startOfDay date) (endOfDay date)))) dateData
  let laneCompliances := lanes.map (fun lane => orZero (dateData.get (toLowerCase lane)))
  let generalCompliance : Option ℤ :=
    if laneCompliances.length > 0 then
      ((laneCompliances.foldl jsAddValue (some 0)).bind
        (fun t => jsDiv t laneCompliances.length)).map mathRound
    else some 0
  dateData.set "general" (.number generalCompliance)

/-- The helper `generateComplianceTrends(period, plantId)` run at time `now`;
the loops `for (let i = days - 1; i >= 0; i--)` visit `days - 1, …, 0`. -/
def generateComplianceTrends (s : Store) (period : String) (plantId : Option String)
    (now : Int) : List JSObject :=
  let days := periodDays period
  let allChecklists := s.checklists.filter (checklistQuery plantId)
  let lanes := uniqueLanes allChecklists
  if lanes.length == 0 then
    (List.range days).reverse.map (fun (i : ℕ) =>
      [("date", .isoDate (isoDay (addDays now (-(i : Int))))), ("general", .number (some 0))])
  else
    (List.range days).reverse.map (fun (i : ℕ) => trendPoint s allChecklists lanes now i)

/-- The expression `user.compliance || 0`. -/
def complianceOrZero (user : User) : ℚ :=
  match user.compliance with
  | some q => q
  | none => 0

/-- The helper `generateComplianceByPlant()` (lines 176-193): for every plant, in the
order of `Plant.find()`, its name and the rounded mean of the scores of its users. -/
def generateComplianceByPlant (s : Store) : List (String × Option ℤ) :=
  s.plants.map (fun plant =>
    let users := s.users.filter (fun u => u.plantId == some plant._id)
    let totalCompliance := users.foldl (fun sum user => sum + complianceOrZero user) (0 : ℚ)
    let compliance : Option ℤ :=
      if users.length > 0 then (jsDiv totalCompliance users.length).map mathRound else some 0
    (plant.name, compliance))

/-- The query `userQuery` (line 24): the users of the plant when `plantId` is given
and is not `'all'`, every user otherwise. -/
def userQuery (plantId : Option String) (u : User) : Bool :=
  match plantId with
  | some p => if p != "" && p != "all" then u.plantId == some p else true
  | none => true

/-- The figure `usersWithoutChecklist` (lines 32-37): the users for whom no
checklist has their lane, sub-area and role name. -/
def usersWithoutChecklist (users : List User) (checklists : List Checklist) : ℕ :=
  (users.filter (fun u =>
    let userChecklists := checklists.filter (fun c =>
      (some c.lane == u.lane) && (some c.area == u.subArea) && (some c.role == u.roleName))
    userChecklists.length == 0)).length

/-- The comparator `(a, b) => (a.compliance || 0) - (b.compliance || 0)` is not
positive: `a` may stay before `b`. -/
def scoreLe (a b : User) : Prop := complianceOrZero a ≤ complianceOrZero b

instance : DecidableRel scoreLe := fun a b =>
  inferInstanceAs (Decidable (complianceOrZero a ≤ complianceOrZero b))

instance : IsTotal User scoreLe := ⟨fun a b => le_total (complianceOrZero a) (complianceOrZero b)⟩

instance : IsTrans User scoreLe := ⟨fun _ _ _ hab hbc => le_trans hab hbc⟩

/-- The list `lowComplianceUsers` (lines 46-50). `Array.prototype.sort` is stable
(ECMAScript 2019), and the result of a stable sort is that of insertion sort. -/
def lowComplianceUsers (users : List User) : List User :=
  ((users.filter (fun u => decide (complianceOrZero u < 80))).insertionSort scoreLe).take 10

/-- The object `kpis` of the insights response. -/
structure Kpis where
  operationalCompliance : Option ℤ
  activeUsers : ℕ
  usersWithoutChecklist : ℕ
deriving DecidableEq

/-- The response of `GET /` of the insights routes. -/
structure Insights where
  kpis : Kpis
  lowComplianceUsers : List User
  complianceTrends : List JSObject
  complianceByPlant : List (String × Option ℤ)
deriving DecidableEq

/-- The handler of `GET /` (lines 19-70) at time `now`; `period` is `'month'` when
the query does not give it. -/
def getInsights (s : Store) (plantId : Option String) (period : String) (now : Int) : Insights :=
  let users := s.users.filter (userQuery plantId)
  let checklists := s.checklists.filter (checklistQuery plantId)
  let activeUsers := (users.filter (fun u => u.role == "user")).length
  let totalCompliance := users.foldl (fun sum user => sum + complianceOrZero user) (0 : ℚ)
  let operationalCompliance : Option ℤ :=
    if users.length > 0 then (jsDiv totalCompliance users.length).map mathRound else some 0
  { kpis :=
      { operationalCompliance := operationalCompliance
        activeUsers := activeUsers
        usersWithoutChecklist := usersWithoutChecklist users checklists }
    lowComplianceUsers := lowComplianceUsers users
    complianceTrends := generateComplianceTrends s period plantId now
    complianceByPlant := generateComplianceByPlant s }

/-! ## `src/utils/geofence.js` -/

/-- The function `toRad` (lines 53-55). -/
noncomputable def toRad (degrees : ℝ) : ℝ := degrees * (Real.pi / 180)

/-- `Math.atan2(y, x)`: the angle of the point `(x, y)`, in `(-π, π]`. -/
noncomputable def atan2 (y x : ℝ) : ℝ :=
  if 0 < x then Real.arctan (y / x)
  else if x < 0 then (if 0 ≤ y then Real.arctan (y / x) + Real.pi else Real.arctan (y / x) - Real.pi)
  else if 0 < y then Real.pi / 2
  else if y < 0 then -(Real.pi / 2)
  else 0

/-- The haversine term `a` of `calculateDistance` (lines 18-21). -/
noncomputable def haversineTerm (lat1 lon1 lat2 lon2 : ℝ) : ℝ :=
  let dLat := toRad (lat2 - lat1)
  let dLon := toRad (lon2 - lon1)
  Real.sin (dLat / 2) * Real.sin (dLat / 2) +
    Real.cos (toRad lat1) * Real.cos (toRad lat2) *
    Real.sin (dLon / 2) * Real.sin (dLon / 2)

/-- The function `calculateDistance` (lines 13-25). -/
noncomputable def calculateDistance (lat1 lon1 lat2 lon2 : ℝ) : ℝ :=
  let R : ℝ := 6371000
  let a := haversineTerm lat1 lon1 lat2 lon2
  let c := 2 * atan2 (Real.sqrt a) (Real.sqrt (1 - a))
  R * c

/-- The function `isWithinGeofence` (lines 36-39). -/
noncomputable def isWithinGeofence (userLat userLon geofenceLat geofenceLon radiusMeters : ℝ) :
    Bool :=
  let distance := calculateDistance userLat userLon geofenceLat geofenceLon
  decide (distance ≤ radiusMeters)

/-- The function `getDistanceToGeofence` (lines 49-51). -/
noncomputable def getDistanceToGeofence (userLat userLon geofenceLat geofenceLon : ℝ) : ℝ :=
  calculateDistance userLat userLon geofenceLat geofenceLon

/-- The haversine great-circle distance as the specification words it: with
`h = sin²((φ₂-φ₁)/2) + cos φ₁ cos φ₂ sin²((λ₂-λ₁)/2)`, angles in radians, and
Earth radius 6 371 000 m, the distance `2 · 6371000 · arcsin √h`. -/
noncomputable def specHaversineDistance (lat1 lon1 lat2 lon2 : ℝ) : ℝ :=
  let φ₁ := lat1 * Real.pi / 180
  let φ₂ := lat2 * Real.pi / 180
  let lam₁ := lon1 * Real.pi / 180
  let lam₂ := lon2 * Real.pi / 180
  let h := Real.sin ((φ₂ - φ₁) / 2) ^ 2 + Real.cos φ₁ * Real.cos φ₂ * Real.sin ((lam₂ - lam₁) / 2) ^ 2
  2 * 6371000 * Real.arcsin (Real.sqrt h)

/-! ## `src/utils/geofence.js` on numbers with special values -/

/-- A JavaScript number with its special values; a finite value is an exact real
(rounding, overflow and the sign of zero are not modelled). -/
inductive JSNum where
  | finite (x : ℝ)
  | posInf
  | negInf
  | nan

/-- The test `Number.isFinite`. -/
def JSNum.isFinite : JSNum → Bool
  | .finite _ => true
  | _ => false

/-- The negation `-a`. -/
noncomputable def JSNum.neg : JSNum → JSNum
  | .finite x => .finite (-x)
  | .posInf => .negInf
  | .negInf => .posInf
  | .nan => .nan

/-- The sum `a + b`: `NaN` is absorbing and `Infinity - Infinity` is `NaN`. -/
noncomputable def JSNum.add : JSNum → JSNum → JSNum
  | .nan, _ => .nan
  | _, .nan => .nan
  | .finite x, .finite y => .finite (x + y)
  | .posInf, .negInf => .nan
  | .negInf, .posInf => .nan
  | .posInf, _ => .posInf
  | _, .posInf => .posInf
  | .negInf, _ => .negInf
  | _, .negInf => .negInf

/-- The difference `a - b`. -/
noncomputable def JSNum.sub (a b : JSNum) : JSNum := a.add b.neg

/-- The product of an infinity of the given sign with `b`: `Infinity * 0` is `NaN`. -/
noncomputable def JSNum.mulInf (positive : Bool) : JSNum → JSNum
  | .finite y =>
    if y = 0 then .nan
    else if (decide (0 < y)) = positive then .posInf else .negInf
  | .posInf => if positive then .posInf else .negInf
  | .negInf => if positive then .negInf else .posInf
  | .nan => .nan

/-- The product `a * b`. -/
noncomputable def JSNum.mul : JSNum → JSNum → JSNum
  | .nan, _ => .nan
  | _, .nan => .nan
  | .finite x, .finite y => .finite (x * y)
  | .posInf, b => JSNum.mulInf true b
  | .negInf, b => JSNum.mulInf false b
  | a, .posInf => JSNum.mulInf true a
  | a, .negInf => JSNum.mulInf false a

/-- The quotient `a / b`: `0 / 0` and `Infinity / Infinity` are `NaN`, a finite
number over an infinity is 0. -/
noncomputable def JSNum.div : JSNum → JSNum → JSNum
  | .nan, _ => .nan
  | _, .nan => .nan
  | .finite x, .finite y =>
    if y = 0 then (if x = 0 then .nan else if 0 < x then .posInf else .negInf)
    else .finite (x / y)
  | .finite _, _ => .finite 0
  | .posInf, .finite y => if 0 ≤ y then .posInf else .negInf
  | .negInf, .finite y => if 0 ≤ y then .negInf else .posInf
  | _, _ => .nan

/-- `Math.sin`: `NaN` outside the finite numbers. -/
noncomputable def JSNum.sin : JSNum → JSNum
  | .finite x => .finite (Real.sin x)
  | _ => .nan

/-- `Math.cos`: `NaN` outside the finite numbers. -/
noncomputable def JSNum.cos : JSNum → JSNum
  | .finite x => .finite (Real.cos x)
  | _ => .nan

/-- `Math.sqrt`: `NaN` on a negative number, on `-Infinity` and on `NaN`. -/
noncomputable def JSNum.sqrt : JSNum → JSNum
  | .finite x => if x < 0 then .nan else .finite (Real.sqrt x)
  | .posInf => .posInf
  | .negInf => .nan
  | .nan => .nan

/-- `Math.atan2(y, x)` with its values at the infinities. -/
noncomputable def JSNum.atan2 : JSNum → JSNum → JSNum
  | .nan, _ => .nan
  | _, .nan => .nan
  | .finite y, .finite x => .finite (Oplist.atan2 y x)
  | .finite _, .posInf => .finite 0
  | .finite y, .negInf => if 0 ≤ y then .finite Real.pi else .finite (-Real.pi)
  | .posInf, .finite _ => .finite (Real.pi / 2)
  | .negInf, .finite _ => .finite (-(Real.pi / 2))
  | .posInf, .posInf => .finite (Real.pi / 4)
  | .posInf, .negInf => .finite (3 * Real.pi / 4)
  | .negInf, .posInf => .finite (-(Real.pi / 4))
  | .negInf, .negInf => .finite (-(3 * Real.pi / 4))

/-- The comparison `a <= b`: false when an operand is `NaN`. -/
noncomputable def JSNum.le : JSNum → JSNum → Bool
  | .nan, _ => false
  | _, .nan => false
  | .finite x, .finite y => decide (x ≤ y)
  | .negInf, _ => true
  | _, .posInf => true
  | _, _ => false

/-- The function `toRad` on numbers with special values. -/
noncomputable def toRadJS (degrees : JSNum) : JSNum :=
  degrees.mul ((JSNum.finite Real.pi).div (.finite 180))

/-- The function `calculateDistance` on numbers with special values. -/
noncomputable def calculateDistanceJS (lat1 lon1 lat2 lon2 : JSNum) : JSNum :=
  let R := JSNum.finite 6371000
  let dLat := toRadJS (lat2.sub lat1)
  let dLon := toRadJS (lon2.sub lon1)
  let a :=
    (((dLat.div (.finite 2)).sin).mul ((dLat.div (.finite 2)).sin)).add
      (((((toRadJS lat1).cos).mul ((toRadJS lat2).cos)).mul
        ((dLon.div (.finite 2)).sin)).mul ((dLon.div (.finite 2)).sin))
  let c := (JSNum.finite 2).mul (JSNum.atan2 a.sqrt ((JSNum.finite 1).sub a).sqrt)
  R.mul c

/-- The function `isWithinGeofence` on numbers with special values. -/
noncomputable def isWithinGeofenceJS (userLat userLon geofenceLat geofenceLon
    radiusMeters : JSNum) : Bool :=
  let distance := calculateDistanceJS userLat userLon geofenceLat geofenceLon
  distance.le radiusMeters

/-! ## Requests and responses of `POST /complete` and `POST /validate` -/

/-- A coordinate of a request body that passed `isFloat()`: a JSON number, or a
non-empty numeric string together with the number `parseFloat` reads from it. -/
inductive JSONNumber where
  | number (q : ℚ)
  | numericString (q : ℚ)
deriving DecidableEq

/-- The truthiness of a coordinate: the number 0 is falsy, a non-empty string is truthy. -/
def JSONNumber.truthy : JSONNumber → Bool
  | .number q => q != 0
  | .numericString _ => true

/-- The call `parseFloat(x)` on a coordinate. -/
def JSONNumber.parseFloat : JSONNumber → ℚ
  | .number q => q
  | .numericString q => q

/-- The truthiness of an optional field of the body; a missing field is `undefined`. -/
def fieldTruthy (x : Option JSONNumber) : Bool :=
  match x with
  | some v => v.truthy
  | none => false

/-- `Math.round` on a real number. -/
noncomputable def realRound (x : ℝ) : ℤ := ⌊x + 1 / 2⌋

/-- The body of `POST /complete`, with the authenticated user `req.user.id`. -/
structure CompleteRequest where
  userId : ObjectId
  checklistId : String
  activityId : String
  latitude : Option JSONNumber := none
  longitude : Option JSONNumber := none
  photo : Option String := none
deriving DecidableEq

/-- The body of `POST /validate`. -/
structure ValidateRequest where
  checklistId : String
  latitude : Option JSONNumber
  longitude : Option JSONNumber
deriving DecidableEq

/-- A JSON response: the status code and the properties of the body that the
handlers set (`errors` is the validation-error array, `activity` the created event). -/
structure Response where
  status : ℕ
  errors : Bool := false
  error : Option String := none
  valid : Option Bool := none
  message : Option String := none
  distance : Option ℤ := none
  requiredRadius : Option ℚ := none
  activity : Option Activity := none
deriving DecidableEq

/-- The location validation of `POST /complete` (activities.js lines 100-117):
the rejection it sends, or `none` when the handler goes on. -/
noncomputable def locationCheck (checklist : Checklist) (req : CompleteRequest) :
    Option Response :=
  match checklist.requiresLocation, checklist.location with
  | true, some location =>
    if !fieldTruthy req.latitude || !fieldTruthy req.longitude then
      some { status := 400, error := some "Location is required for this checklist" }
    else
      match req.latitude, req.longitude with
      | some latitude, some longitude =>
        let valid := isWithinGeofence (latitude.parseFloat : ℝ) (longitude.parseFloat : ℝ)
          (location.latitude : ℝ) (location.longitude : ℝ) (location.radius : ℝ)
        if !valid then some { status := 400, error := some "You are not at the required location" }
        else none
      | _, _ => some { status := 400, error := some "Location is required for this checklist" }
  | _, _ => none

/-- The handler of `POST /complete` (activities.js lines 80-151) at time `now`:
the response and the store after the request. -/
noncomputable def postComplete (s : Store) (req : CompleteRequest) (now : Int) :
    Response × Store :=
  if req.checklistId = "" ∨ req.activityId = "" then ({ status := 400, errors := true }, s)
  else
    match s.checklists.find? (fun c => c._id == req.checklistId) with
    | none => ({ status := 404, error := some "Checklist not found" }, s)
    | some checklist =>
      match locationCheck checklist req with
      | some rejection => (rejection, s)
      | none =>
        match checklist.activities.find? (fun a => a._id == req.activityId) with
        | none => ({ status := 404, error := some "Activity not found" }, s)
        | some activity =>
          if activity.requiresPhoto && !(req.photo.getD "" != "") then
            ({ status := 400, error := some "Photo is required for this activity" }, s)
          else
            let newActivity : Activity :=
              { checklistId := req.checklistId
                activityId := req.activityId
                userId := req.userId
                completedAt := now
                latitude :=
                  if fieldTruthy req.latitude then req.latitude.map JSONNumber.parseFloat else none
                longitude :=
                  if fieldTruthy req.longitude then req.longitude.map JSONNumber.parseFloat
                  else none
                photo := if req.photo.getD "" != "" then req.photo else none }
            let saved : Store := { s with activities := s.activities ++ [newActivity] }
            match updateUserCompliance saved req.userId now with
            | .ok updated => ({ status := 201, activity := some newActivity }, updated)
            | .error _ => ({ status := 500, error := some "Internal server error" }, saved)

/-- The handler of `POST /validate` (geofence.js lines 17-75). The message of the
rejection carries the rounded distance, which is the property `distance`. -/
noncomputable def postValidate (s : Store) (req : ValidateRequest) : Response :=
  match req.latitude, req.longitude with
  | some latitude, some longitude =>
    if req.checklistId = "" then { status := 400, errors := true }
    else
      match s.checklists.find? (fun c => c._id == req.checklistId) with
      | none => { status := 404, error := some "Checklist not found" }
      | some checklist =>
        match checklist.requiresLocation, checklist.location with
        | true, some location =>
          let valid := isWithinGeofence (latitude.parseFloat : ℝ) (longitude.parseFloat : ℝ)
            (location.latitude : ℝ) (location.longitude : ℝ) (location.radius : ℝ)
          let distance := getDistanceToGeofence (latitude.parseFloat : ℝ)
            (longitude.parseFloat : ℝ) (location.latitude : ℝ) (location.longitude : ℝ)
          if valid then
            { status := 200, valid := some true, message := some "Location validated successfully" }
          else
            { status := 400, valid := some false
              message := some "You are (distance)m away from the required location"
              distance := some (realRound distance)
              requiredRadius := some location.radius }
        | _, _ =>
          { status := 200, valid := some true
            message := some "This checklist does not require location validation" }
  | _, _ => { status := 400, errors := true }

/-! ## Specification-side definitions -/

/-- The events of a user on a checklist in the bucket of the day of `now`. -/
def bucketCompletions (s : Store) (user : User) (now : Int) (c : Checklist) : List Activity :=
  findCompletions s c._id user._id (startOfDay now) (addDays (startOfDay now) 1)

/-- The general figure as the specification words it: the rounded unweighted mean
of the per-lane percentages, one term per lane of the list. -/
def specGeneral (laneValues : List ℤ) : ℤ :=
  if laneValues = [] then 0
  else mathRound ((laneValues.map (fun v => (v : ℚ))).sum / laneValues.length)

/-- The count of users without checklist as the specification words it: the users
for whom the assignment rule of `updateUserCompliance` selects no checklist among
the given checklists. -/
def specUsersWithoutChecklist (users : List User) (checklists : List Checklist) : ℕ :=
  (users.filter (fun u => (checklists.filter (assignmentQuery u)).length == 0)).length

/-- The store after a run of `updateUserCompliance`: a rejected save writes nothing. -/
def storeAfterUpdate (s : Store) (userId : ObjectId) (now : Int) : Store :=
  match updateUserCompliance s userId now with
  | .ok updated => updated
  | .error _ => s

/-- The store in which the score of the user `userId` is replaced by `score`. -/
def withScore (s : Store) (userId : ObjectId) (score : Option ℚ) : Store :=
  { s with users := s.users.map (fun u =>
      if u._id == userId then { u with compliance := score } else u) }

/-! ## Example data -/

/-- A time of day on 2023-11-14 (UTC), in milliseconds. -/
def exampleNow : Int := 1700000000000

/-- A cook of the kitchen lane at plant `p1`. -/
def exampleUser : User :=
  { _id := "u1", email := "cook@example.org", name := "Cook", lane := some "Kitchen",
    subArea := some "Prep", roleName := some "Cook", plantId := some "p1" }

/-- A checklist activity named after its id. -/
def exampleActivity (id : String) : ChecklistActivity := { _id := id, name := id }

/-- A checklist of the kitchen lane at plant `p1` with the given activities. -/
def exampleChecklist (id : String) (activityIds : List String) : Checklist :=
  { _id := id, plantId := "p1", name := id, lane := "Kitchen", area := "Prep", role := "Cook",
    activities := activityIds.map exampleActivity }

/-- A completion by `u1` at noon of the day of `exampleNow`. -/
def exampleEvent (checklistId activityId : String) : Activity :=
  { checklistId := checklistId, activityId := activityId, userId := "u1",
    completedAt := 1699963200000 }

/-- One checklist of three activities; `u1` completed `a1` once today. -/
def thirdStore : Store :=
  { users := [exampleUser]
    checklists := [exampleChecklist "c1" ["a1", "a2", "a3"]]
    activities := [exampleEvent "c1" "a1"] }

/-- A checklist at plant `p1` with the given lane and activities. -/
def laneChecklist (id lane : String) (activityIds : List String) : Checklist :=
  { _id := id, plantId := "p1", name := id, lane := lane, area := "Prep", role := "Cook",
    activities := activityIds.map exampleActivity }

/-- Two lanes that differ only in case: `Kitchen` with two activities, one of them
completed today, and `kitchen` with one activity, not completed. -/
def caseStore : Store :=
  { users := [exampleUser]
    checklists := [laneChecklist "c1" "Kitchen" ["a1", "a2"], laneChecklist "c2" "kitchen" ["b1"]]
    activities := [exampleEvent "c1" "a1"] }

/-- A checklist that was edited today: its only current activity is `a2`, completed
today, and the store still holds today's completion of the former activity `a1`. -/
def staleStore : Store :=
  { users := [exampleUser]
    checklists := [laneChecklist "c1" "Kitchen" ["a2"]]
    activities := [exampleEvent "c1" "a1", exampleEvent "c1" "a2"] }

/-- Two plants; `p1` has users with scores 92, 88 and a missing score, `p2` has none. -/
def plantStore : Store :=
  { users :=
      [{ exampleUser with _id := "u1", compliance := some 92 },
       { exampleUser with _id := "u2", compliance := some 88 },
       { exampleUser with _id := "u3", compliance := none }]
    checklists := []
    activities := []
    plants := [{ _id := "p1", name := "North" }, { _id := "p2", name := "South" }] }

/-- A geofence of radius 50 m centred at the south pole. -/
def poleLocation : Location := { address := "South Pole", latitude := -90, longitude := 90 }

/-- One checklist that requires location and has the geofence `poleLocation`. -/
def geofenceStore : Store :=
  { users := [exampleUser]
    checklists := [{ exampleChecklist "c1" ["a1"] with
      requiresLocation := true, location := some poleLocation }]
    activities := [] }

/-- One checklist that requires location but has no geofence. -/
def noGeofenceStore : Store :=
  { users := [exampleUser]
    checklists := [{ exampleChecklist "c1" ["a1"] with requiresLocation := true }]
    activities := [] }

/-- One checklist that has the geofence `poleLocation` but does not require location. -/
def optionalGeofenceStore : Store :=
  { users := [exampleUser]
    checklists := [{ exampleChecklist "c1" ["a1"] with location := some poleLocation }]
    activities := [] }

/-- A user of plant `p1` with the given id and score, and no lane. -/
def scoredUser (id : String) (score : Option ℚ) : User :=
  { _id := id, email := id, name := id, plantId := some "p1", compliance := score }

/-- The cook `u1` of plant `p1`, and one checklist for his lane, sub-area and role
that belongs to plant `p2`. -/
def crossPlantStore : Store :=
  { users := [exampleUser]
    checklists := [{ exampleChecklist "c1" ["a1"] with plantId := "p2" }]
    activities := []
    plants := [{ _id := "p1", name := "North" }, { _id := "p2", name := "South" }] }

/-! ## Theorems -/

/-! ### Auxiliary lemmas on the compliance loop -/

/-- The per-checklist figure of `updateUserCompliance` is always a finite number. -/
theorem checklistCompliance_eq (completions : List Activity) (checklist : Checklist) :
    checklistCompliance completions checklist =
      some (if checklist.activities.length = 0 then 0
        else (completions.length : ℚ) / checklist.activities.length * 100) := by
  unfold checklistCompliance jsDiv
  by_cases h : checklist.activities.length = 0
  · simp [h]
  · have h' : 0 < checklist.activities.length := Nat.pos_of_ne_zero h
    have h'' : ((checklist.activities.length : ℕ) : ℚ) ≠ 0 := by exact_mod_cast h
    simp [h, h', h'']

/-- The loop adds the per-checklist figures to `totalCompliance` and counts the checklists. -/
theorem complianceLoop_eq (s : Store) (userId : ObjectId) (today tomorrow : Int) :
    ∀ (cs : List Checklist) (t : ℚ) (n : ℕ),
      complianceLoop s userId today tomorrow cs (some t) n =
        (some (t + (cs.map (fun c =>
            if c.activities.length = 0 then (0 : ℚ)
            else ((findCompletions s c._id userId today tomorrow).length : ℚ) /
              c.activities.length * 100)).sum),
          n + cs.length) := by
  intro cs
  induction cs with
  | nil => intro t n; simp [complianceLoop]
  | cons c rest ih =>
    intro t n
    simp only [complianceLoop, checklistCompliance_eq, jsAdd, ih, List.map_cons, List.sum_cons,
      List.length_cons]
    refine Prod.ext ?_ ?_
    · simp only [Option.some.injEq]; ring
    · simp only; omega

/-- The score computed by `updateUserCompliance` is the rounded mean of the
per-checklist figures, each the unrounded `events / activities * 100`. -/
theorem averageCompliance_eq (s : Store) (user : User) (now : Int) :
    averageCompliance s user now =
      if assignedChecklists s user = [] then some 0
      else some (mathRound
        (((assignedChecklists s user).map (fun c =>
            if c.activities.length = 0 then (0 : ℚ)
            else ((bucketCompletions s user now c).length : ℚ) /
              c.activities.length * 100)).sum /
          (assignedChecklists s user).length)) := by
  unfold averageCompliance
  simp only [complianceLoop_eq, zero_add, bucketCompletions]
  by_cases h : assignedChecklists s user = []
  · simp [h]
  · have hpos : 0 < (assignedChecklists s user).length := List.length_pos.mpr h
    have hne : (((assignedChecklists s user).length : ℕ) : ℚ) ≠ 0 := by
      exact_mod_cast hpos.ne.symm
    simp [h, hpos, jsDiv, hne]

/-- C5: a checklist is selected by the assignment query of `GET /checklists` and
`updateUserCompliance` exactly when it is stored, its lane, area and role equal
the actor's lane, sub-area and role name, and the actor has no plant or the
checklist's plant is the actor's. -/
theorem C5_assignment_iff (s : Store) (user : User) (c : Checklist) :
    c ∈ assignedChecklists s user ↔
      c ∈ s.checklists ∧ some c.lane = user.lane ∧ some c.area = user.subArea ∧
        some c.role = user.roleName ∧
        (user.plantId = none ∨ user.plantId = some c.plantId) := by
  unfold assignedChecklists assignmentQuery
  rw [List.mem_filter]
  cases hp : user.plantId with
  | none => simp [and_assoc]
  | some p =>
    simp only [Bool.and_eq_true, beq_iff_eq, and_assoc, reduceCtorEq, Option.some.injEq,
      false_or]
    constructor
    · rintro ⟨h1, h2, h3, h4, h5⟩
      exact ⟨h1, h2, h3, h4, h5.symm⟩
    · rintro ⟨h1, h2, h3, h4, h5⟩
      exact ⟨h1, h2, h3, h4, h5.symm⟩

/-! ### Bucket compliance -/

/-- C2: for a checklist without activities both per-checklist figures are exactly 0,
although the quotient by the activity count would be non-finite. -/
theorem C2_empty_checklist_zero (completions : List Activity) (checklist : Checklist)
    (h : checklist.activities = []) :
    completionPercentage completions checklist = some 0 ∧
      checklistCompliance completions checklist = some 0 ∧
      jsDiv completions.length checklist.activities.length = none := by
  simp [completionPercentage, checklistCompliance, jsDiv, h]

/-- C2 at a checklist without activities and two stored events. -/
theorem C2_empty_checklist_zero_witness :
    (exampleChecklist "c1" []).activities = [] ∧
      completionPercentage [exampleEvent "c1" "a1", exampleEvent "c1" "a2"]
        (exampleChecklist "c1" []) = some 0 ∧
      checklistCompliance [exampleEvent "c1" "a1", exampleEvent "c1" "a2"]
        (exampleChecklist "c1" []) = some 0 ∧
      jsDiv [exampleEvent "c1" "a1", exampleEvent "c1" "a2"].length
        (exampleChecklist "c1" []).activities.length = none :=
  ⟨rfl, C2_empty_checklist_zero _ _ rfl⟩

/-- C10: the trend has exactly 1, 7, 30 and 365 points for the periods day, week,
month and year, for every store, site filter and time. -/
theorem C10_trend_length (s : Store) (plantId : Option String) (now : Int) :
    (generateComplianceTrends s "day" plantId now).length = 1 ∧
      (generateComplianceTrends s "week" plantId now).length = 7 ∧
      (generateComplianceTrends s "month" plantId now).length = 30 ∧
      (generateComplianceTrends s "year" plantId now).length = 365 := by
  have hlen : ∀ period, (generateComplianceTrends s period plantId now).length
      = periodDays period := by
    intro period
    unfold generateComplianceTrends
    simp only []
    split <;> simp
  refine ⟨?_, ?_, ?_, ?_⟩ <;> rw [hlen] <;> decide

/-! ### Geofence -/

/-- The haversine term with the squares written as powers. -/
theorem haversineTerm_eq (lat1 lon1 lat2 lon2 : ℝ) :
    haversineTerm lat1 lon1 lat2 lon2 =
      Real.sin ((toRad lat2 - toRad lat1) / 2) ^ 2 +
        Real.cos (toRad lat1) * Real.cos (toRad lat2) *
          Real.sin ((toRad lon2 - toRad lon1) / 2) ^ 2 := by
  have h1 : toRad (lat2 - lat1) = toRad lat2 - toRad lat1 := by unfold toRad; ring
  have h2 : toRad (lon2 - lon1) = toRad lon2 - toRad lon1 := by unfold toRad; ring
  unfold haversineTerm
  simp only [h1, h2]
  ring

/-- The product `cos (p - q) * cos (p + q)` as a difference of squares. -/
theorem cos_sub_mul_cos_add (p q : ℝ) :
    Real.cos (p - q) * Real.cos (p + q) = Real.cos p ^ 2 - Real.sin q ^ 2 := by
  have hp := Real.sin_sq_add_cos_sq p
  have hq := Real.sin_sq_add_cos_sq q
  rw [Real.cos_sub, Real.cos_add]
  have hsp : Real.sin p ^ 2 = 1 - Real.cos p ^ 2 := by linarith
  have hcq : Real.cos q ^ 2 = 1 - Real.sin q ^ 2 := by linarith
  calc (Real.cos p * Real.cos q + Real.sin p * Real.sin q) *
        (Real.cos p * Real.cos q - Real.sin p * Real.sin q)
      = Real.cos p ^ 2 * Real.cos q ^ 2 - Real.sin p ^ 2 * Real.sin q ^ 2 := by ring
    _ = Real.cos p ^ 2 * (1 - Real.sin q ^ 2) - (1 - Real.cos p ^ 2) * Real.sin q ^ 2 := by
      rw [hsp, hcq]
    _ = Real.cos p ^ 2 - Real.sin q ^ 2 := by ring

/-- A product of cosines as a difference of squares of the half-sum and half-difference. -/
theorem cos_mul_cos_half (u v : ℝ) :
    Real.cos u * Real.cos v = Real.cos ((u + v) / 2) ^ 2 - Real.sin ((v - u) / 2) ^ 2 := by
  have h := cos_sub_mul_cos_add ((u + v) / 2) ((v - u) / 2)
  have hu : (u + v) / 2 - (v - u) / 2 = u := by ring
  have hv : (u + v) / 2 + (v - u) / 2 = v := by ring
  rw [hu, hv] at h
  exact h

/-- The haversine term is a convex combination of two squares. -/
theorem haversineTerm_convex (lat1 lon1 lat2 lon2 : ℝ) :
    haversineTerm lat1 lon1 lat2 lon2 =
      Real.sin ((toRad lat2 - toRad lat1) / 2) ^ 2 *
          (1 - Real.sin ((toRad lon2 - toRad lon1) / 2) ^ 2) +
        Real.cos ((toRad lat1 + toRad lat2) / 2) ^ 2 *
          Real.sin ((toRad lon2 - toRad lon1) / 2) ^ 2 := by
  rw [haversineTerm_eq, cos_mul_cos_half]
  ring

/-- The haversine term is non-negative for all real coordinates. -/
theorem haversineTerm_nonneg (lat1 lon1 lat2 lon2 : ℝ) :
    0 ≤ haversineTerm lat1 lon1 lat2 lon2 := by
  rw [haversineTerm_convex]
  have hs : Real.sin ((toRad lon2 - toRad lon1) / 2) ^ 2 ≤ 1 := Real.sin_sq_le_one _
  have h1 := sq_nonneg (Real.sin ((toRad lat2 - toRad lat1) / 2))
  have h2 := sq_nonneg (Real.cos ((toRad lat1 + toRad lat2) / 2))
  have h3 := sq_nonneg (Real.sin ((toRad lon2 - toRad lon1) / 2))
  have h4 : 0 ≤ 1 - Real.sin ((toRad lon2 - toRad lon1) / 2) ^ 2 := by linarith
  positivity

/-- The haversine term is at most 1 for all real coordinates. -/
theorem haversineTerm_le_one (lat1 lon1 lat2 lon2 : ℝ) :
    haversineTerm lat1 lon1 lat2 lon2 ≤ 1 := by
  rw [haversineTerm_convex]
  have hs : Real.sin ((toRad lon2 - toRad lon1) / 2) ^ 2 ≤ 1 := Real.sin_sq_le_one _
  have ha : Real.sin ((toRad lat2 - toRad lat1) / 2) ^ 2 ≤ 1 := Real.sin_sq_le_one _
  have hb : Real.cos ((toRad lat1 + toRad lat2) / 2) ^ 2 ≤ 1 := Real.cos_sq_le_one _
  have h3 := sq_nonneg (Real.sin ((toRad lon2 - toRad lon1) / 2))
  have h4 : 0 ≤ 1 - Real.sin ((toRad lon2 - toRad lon1) / 2) ^ 2 := by linarith
  nlinarith [mul_le_mul_of_nonneg_right ha h4, mul_le_mul_of_nonneg_right hb h3]

/-- On `[0, 1]` the `atan2` form of the central angle is the `arcsin` form. -/
theorem atan2_sqrt_eq_arcsin (h : ℝ) (h0 : 0 ≤ h) (h1 : h ≤ 1) :
    atan2 (Real.sqrt h) (Real.sqrt (1 - h)) = Real.arcsin (Real.sqrt h) := by
  unfold atan2
  rcases lt_or_eq_of_le h1 with hlt | heq
  · have hpos : 0 < Real.sqrt (1 - h) := Real.sqrt_pos.mpr (by linarith)
    have hs1 : Real.sqrt h < 1 := by
      rw [← Real.sqrt_one]
      exact Real.sqrt_lt_sqrt h0 hlt
    have hs0 : 0 ≤ Real.sqrt h := Real.sqrt_nonneg h
    have hmem : Real.sqrt h ∈ Set.Ioo (-(1 : ℝ)) 1 := ⟨by linarith, hs1⟩
    rw [if_pos hpos, Real.arcsin_eq_arctan hmem, Real.sq_sqrt h0]
  · subst heq
    simp [Real.arcsin_one]

/-- C7: `calculateDistance` is symmetric in its two points, exactly, over the reals. -/
theorem C7_distance_symmetric (lat1 lon1 lat2 lon2 : ℝ) :
    calculateDistance lat1 lon1 lat2 lon2 = calculateDistance lat2 lon2 lat1 lon1 := by
  have hterm : haversineTerm lat1 lon1 lat2 lon2 = haversineTerm lat2 lon2 lat1 lon1 := by
    have h1 : (toRad lat1 - toRad lat2) / 2 = -((toRad lat2 - toRad lat1) / 2) := by ring
    have h2 : (toRad lon1 - toRad lon2) / 2 = -((toRad lon2 - toRad lon1) / 2) := by ring
    rw [haversineTerm_eq, haversineTerm_eq, h1, h2, Real.sin_neg, Real.sin_neg]
    ring
  unfold calculateDistance
  simp only [hterm]

/-- C8: the distance of a point to itself is 0, so a point is within every
geofence of non-negative radius centred at it. -/
theorem C8_distance_self_zero (lat lon radiusMeters : ℝ) (hr : 0 ≤ radiusMeters) :
    calculateDistance lat lon lat lon = 0 ∧
      isWithinGeofence lat lon lat lon radiusMeters = true := by
  have hterm : haversineTerm lat lon lat lon = 0 := by
    rw [haversineTerm_eq]; simp
  have hd : calculateDistance lat lon lat lon = 0 := by
    unfold calculateDistance
    simp [hterm, atan2]
  refine ⟨hd, ?_⟩
  unfold isWithinGeofence
  simp [hd, hr]

/-- C8 at the point (40, -74) and radius 50. -/
theorem C8_distance_self_zero_witness :
    (0 : ℝ) ≤ 50 ∧ calculateDistance 40 (-74) 40 (-74) = 0 ∧
      isWithinGeofence 40 (-74) 40 (-74) 50 = true :=
  ⟨by norm_num, C8_distance_self_zero 40 (-74) 50 (by norm_num)⟩

/-- C9: for all real coordinates `calculateDistance` is the haversine great-circle
distance `2 * 6371000 * arcsin (sqrt h)` of the specification, and the `atan2`
form of the code equals the `arcsin` form. -/
theorem C9_distance_is_haversine (lat1 lon1 lat2 lon2 : ℝ) :
    calculateDistance lat1 lon1 lat2 lon2 = specHaversineDistance lat1 lon1 lat2 lon2 ∧
      atan2 (Real.sqrt (haversineTerm lat1 lon1 lat2 lon2))
          (Real.sqrt (1 - haversineTerm lat1 lon1 lat2 lon2)) =
        Real.arcsin (Real.sqrt (haversineTerm lat1 lon1 lat2 lon2)) := by
  have hatan := atan2_sqrt_eq_arcsin (haversineTerm lat1 lon1 lat2 lon2)
    (haversineTerm_nonneg lat1 lon1 lat2 lon2) (haversineTerm_le_one lat1 lon1 lat2 lon2)
  refine ⟨?_, hatan⟩
  unfold calculateDistance
  simp only [hatan]
  unfold specHaversineDistance
  simp only []
  have hh : haversineTerm lat1 lon1 lat2 lon2 =
      Real.sin ((lat2 * Real.pi / 180 - lat1 * Real.pi / 180) / 2) ^ 2 +
        Real.cos (lat1 * Real.pi / 180) * Real.cos (lat2 * Real.pi / 180) *
          Real.sin ((lon2 * Real.pi / 180 - lon1 * Real.pi / 180) / 2) ^ 2 := by
    rw [haversineTerm_eq]
    unfold toRad
    have e : ∀ x : ℝ, x * (Real.pi / 180) = x * Real.pi / 180 := fun x => by ring
    simp only [e]
  rw [hh]
  ring

/-- C6: `isWithinGeofence` is true exactly when the distance to the centre is at
most the radius; a point at distance exactly the radius is within. -/
theorem C6_within_iff_distance_le (userLat userLon geofenceLat geofenceLon radiusMeters : ℝ) :
    (isWithinGeofence userLat userLon geofenceLat geofenceLon radiusMeters = true ↔
        calculateDistance userLat userLon geofenceLat geofenceLon ≤ radiusMeters) ∧
      isWithinGeofence userLat userLon geofenceLat geofenceLon
        (calculateDistance userLat userLon geofenceLat geofenceLon) = true := by
  simp [isWithinGeofence]

/-! ### Objects and sets -/

/-- Reading a key just assigned gives the assigned value. -/
theorem get_set_self (o : JSObject) (k : String) (v : JSValue) :
    (o.set k v).get k = some v := by
  induction o with
  | nil => simp [JSObject.set, JSObject.get]
  | cons kv rest ih =>
    obtain ⟨k', v'⟩ := kv
    by_cases h : k' = k
    · simp [JSObject.set, JSObject.get, h]
    · have ih' := ih
      simp only [JSObject.get] at ih' ⊢
      simp [JSObject.set, h, ih']

/-- Assigning one key leaves the value read under another key unchanged. -/
theorem get_set_of_ne (o : JSObject) (k k' : String) (v : JSValue) (h : k' ≠ k) :
    (o.set k' v).get k = o.get k := by
  induction o with
  | nil => simp [JSObject.set, JSObject.get, h]
  | cons kv rest ih =>
    obtain ⟨k'', v''⟩ := kv
    by_cases h1 : k'' = k'
    · subst h1
      simp [JSObject.set, JSObject.get, h]
    · have ih' := ih
      simp only [JSObject.get] at ih' ⊢
      by_cases h2 : k'' = k
      · subst h2
        simp [JSObject.set, h1]
      · simp [JSObject.set, h1, h2, ih']

/-- A loop of assignments to keys other than `k` leaves the value under `k` unchanged. -/
theorem get_foldl_set_of_ne (key : String → String) (f : String → JSValue) (k : String) :
    ∀ (ls : List String) (o : JSObject), (∀ l ∈ ls, key l ≠ k) →
      (ls.foldl (fun (o : JSObject) l => o.set (key l) (f l)) o).get k = o.get k := by
  intro ls
  induction ls with
  | nil => intro o _; rfl
  | cons l rest ih =>
    intro o h
    rw [List.foldl_cons, ih _ (fun l' hl' => h l' (List.mem_cons_of_mem _ hl')),
      get_set_of_ne _ _ _ _ (h l (List.mem_cons_self _ _))]

/-- After a loop of assignments, a key that only one element of the list maps to
holds the value assigned for that element. -/
theorem get_foldl_set_of_unique (key : String → String) (f : String → JSValue) (k : String)
    (lane : String) (hk : key lane = k) :
    ∀ (ls : List String) (o : JSObject), lane ∈ ls → (∀ l ∈ ls, key l = k → l = lane) →
      (ls.foldl (fun (o : JSObject) l => o.set (key l) (f l)) o).get k = some (f lane) := by
  intro ls
  induction ls with
  | nil => intro o hmem; simp at hmem
  | cons l rest ih =>
    intro o hmem huniq
    rw [List.foldl_cons]
    by_cases hrest : lane ∈ rest
    · exact ih _ hrest (fun l' hl' => huniq l' (List.mem_cons_of_mem _ hl'))
    · have hl : lane = l := by
        rcases List.mem_cons.mp hmem with h | h
        · exact h
        · exact absurd h hrest
      subst hl
      rw [get_foldl_set_of_ne key f k rest _ ?_, hk, get_set_self]
      intro l' hl' hkey
      exact hrest (huniq l' (List.mem_cons_of_mem _ hl') hkey ▸ hl')

/-- The lane figure is always a finite number. -/
theorem laneCompliance_isSome (s : Store) (allChecklists : List Checklist) (lane : String)
    (dayStart dayEnd : Int) :
    ∃ v : ℤ, laneCompliance s allChecklists lane dayStart dayEnd = some v := by
  unfold laneCompliance
  simp only []
  split
  · exact ⟨0, rfl⟩
  · split
    · rename_i hpos
      have hne : ∀ n : ℕ, n > 0 → ((n : ℕ) : ℚ) ≠ 0 := fun n hn => by exact_mod_cast hn.ne.symm
      simp only [jsDiv, hne _ hpos, if_false, Option.map_some']
      exact ⟨_, rfl⟩
    · exact ⟨0, rfl⟩

/-- The sum of a `reduce` over finite numbers. -/
theorem foldl_jsAddValue (vs : List ℤ) (a : ℚ) :
    (vs.map (fun v => JSValue.number (some v))).foldl jsAddValue (some a) =
      some (a + (vs.map (fun v => (v : ℚ))).sum) := by
  induction vs generalizing a with
  | nil => simp
  | cons v rest ih => simp [jsAddValue, jsAdd, ih, add_assoc]

/-- When the lower-cased names of the lanes are pairwise distinct, `general` is the
rounded mean of the lane figures computed for the day. -/
theorem trendPoint_general (s : Store) (allChecklists : List Checklist) (lanes : List String)
    (now : Int) (i : ℕ)
    (hinj : ∀ l ∈ lanes, ∀ l' ∈ lanes, toLowerCase l' = toLowerCase l → l' = l) :
    (trendPoint s allChecklists lanes now i).get "general" =
      some (.number (some (specGeneral (lanes.map (fun l =>
        (laneCompliance s allChecklists l (startOfDay (addDays now (-(i : Int))))
          (endOfDay (addDays now (-(i : Int))))).getD 0))))) := by
  unfold trendPoint
  simp only []
  rw [get_set_self]
  have hread : lanes.map (fun lane => orZero
        ((lanes.foldl (fun (o : JSObject) lane =>
          o.set (toLowerCase lane)
            (.number (laneCompliance s allChecklists lane (startOfDay (addDays now (-(i : Int))))
              (endOfDay (addDays now (-(i : Int)))))))
          [("date", .isoDate (isoDay (addDays now (-(i : Int)))))]).get (toLowerCase lane))) =
      (lanes.map (fun l =>
        (laneCompliance s allChecklists l (startOfDay (addDays now (-(i : Int))))
          (endOfDay (addDays now (-(i : Int))))).getD 0)).map
        (fun v => JSValue.number (some v)) := by
    rw [List.map_map]
    apply List.map_congr_left
    intro l hl
    rw [get_foldl_set_of_unique toLowerCase
      (fun l => JSValue.number (laneCompliance s allChecklists l
        (startOfDay (addDays now (-(i : Int)))) (endOfDay (addDays now (-(i : Int))))))
      (toLowerCase l) l rfl lanes _ hl (fun l' hl' h => hinj l hl l' hl' h)]
    obtain ⟨v, hv⟩ := laneCompliance_isSome s allChecklists l
      (startOfDay (addDays now (-(i : Int)))) (endOfDay (addDays now (-(i : Int))))
    simp [hv, orZero]
  rw [hread, foldl_jsAddValue]
  unfold specGeneral
  by_cases hl : lanes = []
  · simp [hl]
  · have hpos : 0 < lanes.length := List.length_pos.mpr hl
    have hne : ((lanes.length : ℕ) : ℚ) ≠ 0 := by exact_mod_cast hpos.ne.symm
    simp [hl, hpos, jsDiv, hne]

/-! ### Trend points -/

/-- C13 at a failing input: for the lanes `Kitchen` and `kitchen` the per-lane
percentages computed for today are 50 and 0, whose rounded mean is 25; the code
reads both terms back from the shared key `kitchen` and stores `general = 0`. -/
theorem C13_case_collision_general :
    (uniqueLanes caseStore.checklists).map
        (fun lane => laneCompliance caseStore caseStore.checklists lane
          (startOfDay exampleNow) (endOfDay exampleNow)) = [some 50, some 0] ∧
      specGeneral [50, 0] = 25 ∧
      (generateComplianceTrends caseStore "day" none exampleNow).map
          (fun o => o.get "general") = [some (.number (some 0))] := by
  decide!

/-- C14 at a failing input: a checklist whose only current activity is `a2`, with
today's completions of `a2` and of the former activity `a1`, gives the lane and
`general` the value 200. -/
theorem C14_stale_activity_general_200 :
    (generateComplianceTrends staleStore "day" none exampleNow).map
        (fun o => o.get "general") = [some (.number (some 200))] ∧
      (staleStore.checklists.map (fun c => c.activities.map (fun a => a._id))) = [["a2"]] := by
  decide!

/-- The set of an empty list is empty. -/
theorem newSet_nil : newSet [] = [] := rfl

/-- C15: when no checklist matching the filter has a lane, every point of the trend
is exactly the object with the keys `date` and `general`, and `general` is 0. -/
theorem C15_no_lanes_points (s : Store) (period : String) (plantId : Option String) (now : Int)
    (h : ∀ c ∈ s.checklists, checklistQuery plantId c = true → c.lane = "") :
    ∀ p ∈ generateComplianceTrends s period plantId now,
      (∃ d : Int, p = [("date", .isoDate d), ("general", .number (some 0))]) ∧
        p.map (fun kv => kv.1) = ["date", "general"] ∧
        p.get "general" = some (.number (some 0)) := by
  have hl : uniqueLanes (s.checklists.filter (checklistQuery plantId)) = [] := by
    unfold uniqueLanes
    have hf : ((s.checklists.filter (checklistQuery plantId)).map (fun c => c.lane)).filter
        (fun l => l != "") = [] := by
      rw [List.filter_eq_nil_iff]
      intro l hl
      rw [List.mem_map] at hl
      obtain ⟨c, hc, rfl⟩ := hl
      rw [List.mem_filter] at hc
      simp [h c hc.1 hc.2]
    rw [hf, newSet_nil]
  intro p hp
  unfold generateComplianceTrends at hp
  simp only [hl, List.length_nil, beq_self_eq_true, if_true, List.mem_map] at hp
  obtain ⟨i, _, rfl⟩ := hp
  exact ⟨⟨_, rfl⟩, rfl, rfl⟩

/-- C15 at a store without checklists, for the week ending at the example time. -/
theorem C15_no_lanes_points_witness :
    (∀ c ∈ plantStore.checklists, checklistQuery none c = true → c.lane = "") ∧
      ∀ p ∈ generateComplianceTrends plantStore "week" none exampleNow,
        (∃ d : Int, p = [("date", .isoDate d), ("general", .number (some 0))]) ∧
          p.map (fun kv => kv.1) = ["date", "general"] ∧
          p.get "general" = some (.number (some 0)) :=
  ⟨by decide, C15_no_lanes_points plantStore "week" none exampleNow (by decide)⟩

/-! ### Compliance by plant -/

/-- The running sum of a `reduce` is the start value plus the sum of the terms. -/
theorem foldl_add_eq_sum {α : Type} (f : α → ℚ) (l : List α) (a : ℚ) :
    l.foldl (fun sum x => sum + f x) a = a + (l.map f).sum := by
  induction l generalizing a with
  | nil => simp
  | cons x rest ih => simp [ih, add_assoc]

/-- C16: `generateComplianceByPlant` returns one entry per plant, in the order of
the plant list, with the rounded mean of the stored scores of the users of the
plant, a missing score counting as 0, and 0 for a plant without users. -/
theorem C16_compliance_by_plant (s : Store) :
    generateComplianceByPlant s =
      s.plants.map (fun plant =>
        (plant.name,
          some (if s.users.filter (fun u => u.plantId == some plant._id) = [] then 0
            else mathRound
              (((s.users.filter (fun u => u.plantId == some plant._id)).map
                  (fun u => (u.compliance.getD 0 : ℚ))).sum /
                (s.users.filter (fun u => u.plantId == some plant._id)).length)))) := by
  unfold generateComplianceByPlant
  apply List.map_congr_left
  intro plant _
  have hget : (fun u : User => complianceOrZero u) = fun u => (u.compliance.getD 0 : ℚ) := by
    funext u
    unfold complianceOrZero
    cases u.compliance <;> rfl
  simp only [foldl_add_eq_sum, zero_add, hget]
  by_cases hu : s.users.filter (fun u => u.plantId == some plant._id) = []
  · simp [hu]
  · have hpos : 0 < (s.users.filter (fun u => u.plantId == some plant._id)).length :=
      List.length_pos.mpr hu
    have hne : (((s.users.filter (fun u => u.plantId == some plant._id)).length : ℕ) : ℚ) ≠ 0 := by
      exact_mod_cast hpos.ne.symm
    simp [hu, hpos, jsDiv, hne]

/-! ### Completion and validation requests -/

/-- The distance from the north pole to the south pole is half the circumference. -/
theorem calculateDistance_poles :
    calculateDistance 90 90 (-90) 90 = 6371000 * Real.pi := by
  have hterm : haversineTerm 90 90 (-90) 90 = 1 := by
    rw [haversineTerm_eq]
    have h1 : (toRad (-90) - toRad 90) / 2 = -(Real.pi / 2) := by unfold toRad; ring
    have h2 : (toRad 90 - toRad 90) / 2 = 0 := by ring
    rw [h1, h2]
    simp
  unfold calculateDistance
  simp only [hterm]
  simp [atan2]
  ring

/-- The north pole is not within 50 m of the south pole. -/
theorem isWithinGeofence_poles : isWithinGeofence 90 90 (-90) 90 50 = false := by
  unfold isWithinGeofence
  simp only [calculateDistance_poles, decide_eq_false_iff_not, not_le]
  nlinarith [Real.pi_gt_three]

/-- A field other than the number 0 is falsy exactly when it is missing. -/
theorem fieldTruthy_eq_false_iff (x : Option JSONNumber) (h : x ≠ some (.number 0)) :
    fieldTruthy x = false ↔ x = none := by
  cases x with
  | none => simp [fieldTruthy]
  | some v =>
    cases v with
    | number q =>
      have hq : q ≠ 0 := fun h0 => h (by rw [h0])
      simp [fieldTruthy, JSONNumber.truthy, hq]
    | numericString q => simp [fieldTruthy, JSONNumber.truthy]

/-- A rejection of the location validation is the response, and the store is unchanged. -/
theorem postComplete_of_rejection (s : Store) (req : CompleteRequest) (now : Int)
    (c : Checklist) (r : Response)
    (hid : req.checklistId ≠ "" ∧ req.activityId ≠ "")
    (hc : s.checklists.find? (fun c => c._id == req.checklistId) = some c)
    (h : locationCheck c req = some r) :
    postComplete s req now = (r, s) := by
  unfold postComplete
  rw [if_neg (not_or.mpr hid)]
  simp only [hc, h]

/-- When the location validation passes, the response is not a location rejection. -/
theorem postComplete_of_pass (s : Store) (req : CompleteRequest) (now : Int) (c : Checklist)
    (hid : req.checklistId ≠ "" ∧ req.activityId ≠ "")
    (hc : s.checklists.find? (fun c => c._id == req.checklistId) = some c)
    (h : locationCheck c req = none) :
    (postComplete s req now).1.error ≠ some "Location is required for this checklist" ∧
      (postComplete s req now).1.error ≠ some "You are not at the required location" := by
  unfold postComplete
  rw [if_neg (not_or.mpr hid)]
  simp only [hc, h]
  cases checklist_activity : c.activities.find? (fun a => a._id == req.activityId) with
  | none => simp
  | some activity =>
    simp only []
    split
    · simp
    · split <;> simp

/-- C17 (as amended): for a request that passes the field validation, names an
existing checklist and whose supplied coordinates are not the number 0,
`POST /complete` answers `Location is required` exactly when the checklist has
`requiresLocation = true`, has a geofence, and the latitude or the longitude is
missing from the request. -/
theorem C17_location_required_iff (s : Store) (req : CompleteRequest) (now : Int)
    (c : Checklist)
    (hid : req.checklistId ≠ "" ∧ req.activityId ≠ "")
    (hc : s.checklists.find? (fun c => c._id == req.checklistId) = some c)
    (hlat : req.latitude ≠ some (.number 0)) (hlon : req.longitude ≠ some (.number 0)) :
    (postComplete s req now).1.error = some "Location is required for this checklist" ↔
      c.requiresLocation = true ∧ c.location ≠ none ∧
        (req.latitude = none ∨ req.longitude = none) := by
  cases hreq : c.requiresLocation with
  | false =>
    have hpass : locationCheck c req = none := by
      unfold locationCheck; rw [hreq]
    simp [(postComplete_of_pass s req now c hid hc hpass).1]
  | true =>
    cases hloc : c.location with
    | none =>
      have hpass : locationCheck c req = none := by
        unfold locationCheck; rw [hreq, hloc]
      simp [(postComplete_of_pass s req now c hid hc hpass).1]
    | some location =>
      by_cases hmiss : req.latitude = none ∨ req.longitude = none
      · have hfalsy : (!fieldTruthy req.latitude || !fieldTruthy req.longitude) = true := by
          rcases hmiss with h | h <;> simp [h, fieldTruthy]
        have hrej : locationCheck c req =
            some { status := 400, error := some "Location is required for this checklist" } := by
          unfold locationCheck; rw [hreq, hloc]; simp only [hfalsy, if_true]
        rw [postComplete_of_rejection s req now c _ hid hc hrej]
        simp [hmiss]
      · have hlat' : fieldTruthy req.latitude = true := by
          by_contra hf
          exact hmiss (Or.inl ((fieldTruthy_eq_false_iff _ hlat).mp (by simpa using hf)))
        have hlon' : fieldTruthy req.longitude = true := by
          by_contra hf
          exact hmiss (Or.inr ((fieldTruthy_eq_false_iff _ hlon).mp (by simpa using hf)))
        obtain ⟨latitude, hla⟩ := Option.ne_none_iff_exists'.mp (fun h => hmiss (Or.inl h))
        obtain ⟨longitude, hlo⟩ := Option.ne_none_iff_exists'.mp (fun h => hmiss (Or.inr h))
        have hcheck : locationCheck c req =
            if !isWithinGeofence (latitude.parseFloat : ℝ) (longitude.parseFloat : ℝ)
                (location.latitude : ℝ) (location.longitude : ℝ) (location.radius : ℝ) then
              some { status := 400, error := some "You are not at the required location" }
            else none := by
          unfold locationCheck
          rw [hreq, hloc]
          rw [hla] at hlat'
          rw [hlo] at hlon'
          simp [hla, hlo, hlat', hlon']
        by_cases hin : isWithinGeofence (latitude.parseFloat : ℝ) (longitude.parseFloat : ℝ)
            (location.latitude : ℝ) (location.longitude : ℝ) (location.radius : ℝ) = true
        · have hpass : locationCheck c req = none := by rw [hcheck]; simp [hin]
          simp [(postComplete_of_pass s req now c hid hc hpass).1, hmiss]
        · have hrej : locationCheck c req =
              some { status := 400, error := some "You are not at the required location" } := by
            rw [hcheck]; simp [hin]
          rw [postComplete_of_rejection s req now c _ hid hc hrej]
          simp [hmiss]

/-- C17 (as amended) at a checklist with a geofence and a request without coordinates. -/
theorem C17_location_required_iff_witness :
    (("c1" : String) ≠ "" ∧ ("a1" : String) ≠ "") ∧
      geofenceStore.checklists.find? (fun c => c._id == "c1") =
        some { exampleChecklist "c1" ["a1"] with
          requiresLocation := true, location := some poleLocation } ∧
      (none : Option JSONNumber) ≠ some (.number 0) ∧
      ((postComplete geofenceStore
            { userId := "u1", checklistId := "c1", activityId := "a1" } exampleNow).1.error =
          some "Location is required for this checklist" ↔
        ({ exampleChecklist "c1" ["a1"] with
            requiresLocation := true, location := some poleLocation } : Checklist).requiresLocation
            = true ∧
          ({ exampleChecklist "c1" ["a1"] with
            requiresLocation := true, location := some poleLocation } : Checklist).location
            ≠ none ∧
          ((none : Option JSONNumber) = none ∨ (none : Option JSONNumber) = none)) :=
  ⟨by decide, by decide, by decide,
    C17_location_required_iff geofenceStore
      { userId := "u1", checklistId := "c1", activityId := "a1" } exampleNow _
      (by decide) (by decide) (by decide) (by decide)⟩

/-- C17 as stated fails: a checklist with `requiresLocation = true` but no geofence
accepts a completion without coordinates (status 201); and a request to a
geofenced checklist with the numeric latitude 0 and longitude 5 is answered
`Location is required`. -/
theorem C17_counterexample :
    noGeofenceStore.checklists.map (fun c => (c.requiresLocation, c.location)) = [(true, none)] ∧
      (postComplete noGeofenceStore
          { userId := "u1", checklistId := "c1", activityId := "a1" } exampleNow).1 =
        { status := 201
          activity := some
            { checklistId := "c1", activityId := "a1", userId := "u1", completedAt := exampleNow } } ∧
      (postComplete geofenceStore
          { userId := "u1", checklistId := "c1", activityId := "a1",
            latitude := some (.number 0), longitude := some (.number 5) } exampleNow).1 =
        { status := 400, error := some "Location is required for this checklist" } := by
  decide!

/-- A rejection of the location validation has status 400 and carries an error
message only: no created event, no distance and no radius. -/
theorem locationCheck_rejection (c : Checklist) (req : CompleteRequest) (r : Response)
    (h : locationCheck c req = some r) :
    r = { status := 400, error := some "Location is required for this checklist" } ∨
      r = { status := 400, error := some "You are not at the required location" } := by
  unfold locationCheck at h
  split at h
  · split at h
    · exact Or.inl (Option.some.inj h).symm
    · split at h
      · simp only [] at h
        split at h
        · exact Or.inr (Option.some.inj h).symm
        · exact absurd h (by simp)
      · exact Or.inl (Option.some.inj h).symm
  · exact absurd h (by simp)

/-- C18: a request whose `activityId` is not the id of an activity of the checklist
it names is rejected with status 400 or 404, creates no event, and leaves the
store, hence every score, unchanged. -/
theorem C18_unknown_activity_rejected (s : Store) (req : CompleteRequest) (now : Int)
    (h : ∀ c ∈ s.checklists, c._id = req.checklistId →
      ∀ a ∈ c.activities, a._id ≠ req.activityId) :
    (postComplete s req now).2 = s ∧
      ((postComplete s req now).1.status = 400 ∨ (postComplete s req now).1.status = 404) ∧
      (postComplete s req now).1.activity = none := by
  unfold postComplete
  by_cases hid : req.checklistId = "" ∨ req.activityId = ""
  · rw [if_pos hid]; simp
  · rw [if_neg hid]
    cases hc : s.checklists.find? (fun c => c._id == req.checklistId) with
    | none => simp
    | some c =>
      have hcmem : c ∈ s.checklists := List.mem_of_find?_eq_some hc
      have hcid : c._id = req.checklistId := by
        have := List.find?_some hc
        simpa using this
      cases hl : locationCheck c req with
      | some r =>
        rcases locationCheck_rejection c req r hl with hr | hr <;> simp [hl, hr]
      | none =>
        cases ha : c.activities.find? (fun a => a._id == req.activityId) with
        | none => simp [hl, ha]
        | some activity =>
          have hamem : activity ∈ c.activities := List.mem_of_find?_eq_some ha
          have haid : activity._id = req.activityId := by
            have := List.find?_some ha
            simpa using this
          exact absurd haid (h c hcmem hcid activity hamem)

/-- C18 at a request for the activity `zz`, which the checklist `c1` does not have. -/
theorem C18_unknown_activity_rejected_witness :
    (∀ c ∈ thirdStore.checklists, c._id = "c1" → ∀ a ∈ c.activities, a._id ≠ "zz") ∧
      (postComplete thirdStore
          { userId := "u1", checklistId := "c1", activityId := "zz" } exampleNow).2 = thirdStore ∧
      ((postComplete thirdStore
          { userId := "u1", checklistId := "c1", activityId := "zz" } exampleNow).1.status = 400 ∨
        (postComplete thirdStore
          { userId := "u1", checklistId := "c1", activityId := "zz" } exampleNow).1.status = 404) ∧
      (postComplete thirdStore
          { userId := "u1", checklistId := "c1", activityId := "zz" } exampleNow).1.activity = none :=
  ⟨by decide,
    C18_unknown_activity_rejected thirdStore
      { userId := "u1", checklistId := "c1", activityId := "zz" } exampleNow (by decide)⟩

/-- C19 at a failing input: for a completion sent from the north pole to a checklist
whose geofence of radius 50 m is centred at the south pole, `POST /complete`
answers the bare error message, without distance and radius, whereas
`POST /validate` reports both for the same point. -/
theorem C19_complete_rejection_without_distance :
    postComplete geofenceStore
        { userId := "u1", checklistId := "c1", activityId := "a1",
          latitude := some (.number 90), longitude := some (.number 90) } exampleNow =
        ({ status := 400, error := some "You are not at the required location",
           distance := none, requiredRadius := none }, geofenceStore) ∧
      postValidate geofenceStore
        { checklistId := "c1", latitude := some (.number 90), longitude := some (.number 90) } =
        { status := 400, valid := some false
          message := some "You are (distance)m away from the required location"
          distance := some (realRound (6371000 * Real.pi))
          requiredRadius := some 50 } := by
  have hw := isWithinGeofence_poles
  have hd := calculateDistance_poles
  constructor
  · have hrej : locationCheck
        { exampleChecklist "c1" ["a1"] with
          requiresLocation := true, location := some poleLocation }
        { userId := "u1", checklistId := "c1", activityId := "a1",
          latitude := some (.number 90), longitude := some (.number 90) } =
        some { status := 400, error := some "You are not at the required location" } := by
      simp [locationCheck, fieldTruthy, JSONNumber.truthy, JSONNumber.parseFloat, poleLocation, hw]
    exact postComplete_of_rejection _ _ _ _ _ (by decide) (by decide) hrej
  · simp [postValidate, geofenceStore, exampleChecklist, JSONNumber.parseFloat, poleLocation, hw,
      getDistanceToGeofence, hd]

/-- C20 (as amended): for an existing checklist and a point, `POST /validate` answers
`valid = true` without a distance computation exactly when the checklist has
`requiresLocation = false` or has no geofence; for a checklist with
`requiresLocation = true` and a geofence, `valid` is `isWithinGeofence` of the point,
the centre and the radius. -/
theorem C20_validate_valid (s : Store) (req : ValidateRequest) (c : Checklist)
    (latitude longitude : JSONNumber)
    (hid : req.checklistId ≠ "")
    (hlat : req.latitude = some latitude) (hlon : req.longitude = some longitude)
    (hc : s.checklists.find? (fun c => c._id == req.checklistId) = some c) :
    (((postValidate s req).valid = some true ∧
          (postValidate s req).message =
            some "This checklist does not require location validation") ↔
        (c.requiresLocation = false ∨ c.location = none)) ∧
      ∀ location : Location, c.requiresLocation = true → c.location = some location →
        (postValidate s req).valid =
          some (isWithinGeofence (latitude.parseFloat : ℝ) (longitude.parseFloat : ℝ)
            (location.latitude : ℝ) (location.longitude : ℝ) (location.radius : ℝ)) := by
  unfold postValidate
  simp only [hlat, hlon, if_neg hid, hc]
  cases hreq : c.requiresLocation with
  | false => simp
  | true =>
    cases hloc : c.location with
    | none => simp
    | some location =>
      simp only []
      by_cases hin : isWithinGeofence (latitude.parseFloat : ℝ) (longitude.parseFloat : ℝ)
          (location.latitude : ℝ) (location.longitude : ℝ) (location.radius : ℝ) = true
      · simp [hin]
      · simp [hin]

/-- C20 (as amended) at a point on the geofence centre of a checklist that requires
location. -/
theorem C20_validate_valid_witness :
    ("c1" : String) ≠ "" ∧
      (some (JSONNumber.number (-90)) = some (JSONNumber.number (-90))) ∧
      geofenceStore.checklists.find? (fun c => c._id == "c1") =
        some { exampleChecklist "c1" ["a1"] with
          requiresLocation := true, location := some poleLocation } ∧
      ((((postValidate geofenceStore
              { checklistId := "c1", latitude := some (.number (-90)),
                longitude := some (.number 90) }).valid = some true ∧
            (postValidate geofenceStore
              { checklistId := "c1", latitude := some (.number (-90)),
                longitude := some (.number 90) }).message =
              some "This checklist does not require location validation") ↔
          (({ exampleChecklist "c1" ["a1"] with
              requiresLocation := true, location := some poleLocation } : Checklist).requiresLocation
              = false ∨
            ({ exampleChecklist "c1" ["a1"] with
              requiresLocation := true, location := some poleLocation } : Checklist).location
              = none)) ∧
        ∀ location : Location,
          ({ exampleChecklist "c1" ["a1"] with
              requiresLocation := true, location := some poleLocation } : Checklist).requiresLocation
              = true →
          ({ exampleChecklist "c1" ["a1"] with
              requiresLocation := true, location := some poleLocation } : Checklist).location
              = some location →
          (postValidate geofenceStore
              { checklistId := "c1", latitude := some (.number (-90)),
                longitude := some (.number 90) }).valid =
            some (isWithinGeofence ((JSONNumber.number (-90)).parseFloat : ℝ)
              ((JSONNumber.number 90).parseFloat : ℝ)
              (location.latitude : ℝ) (location.longitude : ℝ) (location.radius : ℝ))) :=
  ⟨by decide, rfl, by decide,
    C20_validate_valid geofenceStore
      { checklistId := "c1", latitude := some (.number (-90)), longitude := some (.number 90) }
      _ (.number (-90)) (.number 90) (by decide) rfl rfl (by decide)⟩

/-- C20 as stated fails: a checklist that has a geofence but `requiresLocation = false`
is answered `valid = true` without a distance computation, also for the north pole,
which is not within the geofence of 50 m around the south pole. -/
theorem C20_counterexample :
    optionalGeofenceStore.checklists.map (fun c => (c.requiresLocation, c.location)) =
        [(false, some poleLocation)] ∧
      postValidate optionalGeofenceStore
        { checklistId := "c1", latitude := some (.number 90), longitude := some (.number 90) } =
        { status := 200, valid := some true
          message := some "This checklist does not require location validation" } ∧
      isWithinGeofence ((JSONNumber.number 90).parseFloat : ℝ)
        ((JSONNumber.number 90).parseFloat : ℝ) (poleLocation.latitude : ℝ)
        (poleLocation.longitude : ℝ) (poleLocation.radius : ℝ) = false := by
  refine ⟨by decide, by decide!, ?_⟩
  simp [JSONNumber.parseFloat, poleLocation, isWithinGeofence_poles]

/-! ### Geofence: radius and range -/

/-- A point is within every geofence of non-negative radius centred at itself. -/
theorem isWithinGeofence_self (lat lon radiusMeters : ℝ) (hr : 0 ≤ radiusMeters) :
    isWithinGeofence lat lon lat lon radiusMeters = true := by
  have hterm : haversineTerm lat lon lat lon = 0 := by
    rw [haversineTerm_eq]; simp
  have hd : calculateDistance lat lon lat lon = 0 := by
    unfold calculateDistance
    simp [hterm, atan2]
  unfold isWithinGeofence
  simp [hd, hr]

/-- C25: `isWithinGeofence` is monotonic in the radius: a point within the radius `r`
is within every radius `r' ≥ r`. -/
theorem C25_within_monotone (userLat userLon geofenceLat geofenceLon r r' : ℝ)
    (hrr : r ≤ r')
    (h : isWithinGeofence userLat userLon geofenceLat geofenceLon r = true) :
    isWithinGeofence userLat userLon geofenceLat geofenceLon r' = true := by
  unfold isWithinGeofence at h ⊢
  simp only [decide_eq_true_eq] at h ⊢
  exact le_trans h hrr

/-- C25 at the point (40, -74), its own centre, and the radii 50 and 100. -/
theorem C25_within_monotone_witness :
    (50 : ℝ) ≤ 100 ∧ isWithinGeofence 40 (-74) 40 (-74) 50 = true ∧
      isWithinGeofence 40 (-74) 40 (-74) 100 = true :=
  ⟨by norm_num, isWithinGeofence_self 40 (-74) 50 (by norm_num),
    C25_within_monotone 40 (-74) 40 (-74) 50 100 (by norm_num)
      (isWithinGeofence_self 40 (-74) 50 (by norm_num))⟩

/-- A sum with a non-finite left operand is not finite. -/
theorem add_not_finite_left (a b : JSNum) (h : a.isFinite = false) :
    (a.add b).isFinite = false := by
  cases a <;> cases b <;> simp_all [JSNum.add, JSNum.isFinite]

/-- A sum with a non-finite right operand is not finite. -/
theorem add_not_finite_right (a b : JSNum) (h : b.isFinite = false) :
    (a.add b).isFinite = false := by
  cases a <;> cases b <;> simp_all [JSNum.add, JSNum.isFinite]

/-- A difference with a non-finite operand is not finite. -/
theorem sub_not_finite (a b : JSNum) (h : a.isFinite = false ∨ b.isFinite = false) :
    (a.sub b).isFinite = false := by
  unfold JSNum.sub
  rcases h with h | h
  · exact add_not_finite_left _ _ h
  · apply add_not_finite_right
    cases b <;> simp_all [JSNum.neg, JSNum.isFinite]

/-- The product of an infinity with any number is not finite. -/
theorem mulInf_not_finite (positive : Bool) (b : JSNum) :
    (JSNum.mulInf positive b).isFinite = false := by
  cases b with
  | finite y =>
    simp only [JSNum.mulInf]
    split
    · rfl
    · split <;> rfl
  | posInf => cases positive <;> rfl
  | negInf => cases positive <;> rfl
  | nan => rfl

/-- A product with a non-finite left operand is not finite. -/
theorem mul_not_finite_left (a b : JSNum) (h : a.isFinite = false) :
    (a.mul b).isFinite = false := by
  cases a with
  | finite x => simp [JSNum.isFinite] at h
  | posInf =>
    cases b <;> simp only [JSNum.mul] <;> first | rfl | exact mulInf_not_finite _ _
  | negInf =>
    cases b <;> simp only [JSNum.mul] <;> first | rfl | exact mulInf_not_finite _ _
  | nan => cases b <;> rfl

/-- The radians of a non-finite number of degrees are not finite. -/
theorem toRadJS_not_finite (a : JSNum) (h : a.isFinite = false) :
    (toRadJS a).isFinite = false :=
  mul_not_finite_left _ _ h

/-- Half of a non-finite number is not finite. -/
theorem div_two_not_finite (a : JSNum) (h : a.isFinite = false) :
    (a.div (.finite 2)).isFinite = false := by
  cases a with
  | finite x => simp [JSNum.isFinite] at h
  | posInf => simp [JSNum.div, JSNum.isFinite]
  | negInf => simp [JSNum.div, JSNum.isFinite]
  | nan => rfl

/-- The sine of a non-finite number is `NaN`. -/
theorem sin_of_not_finite (a : JSNum) (h : a.isFinite = false) : a.sin = .nan := by
  cases a <;> simp_all [JSNum.sin, JSNum.isFinite]

/-- The cosine of a non-finite number is `NaN`. -/
theorem cos_of_not_finite (a : JSNum) (h : a.isFinite = false) : a.cos = .nan := by
  cases a <;> simp_all [JSNum.cos, JSNum.isFinite]

/-- `NaN` is absorbing on the right of a product. -/
theorem mul_nan_right (a : JSNum) : a.mul .nan = .nan := by
  cases a <;> rfl

/-- `NaN` is absorbing on the left of a product. -/
theorem nan_mul_left (b : JSNum) : JSNum.nan.mul b = .nan := by
  cases b <;> rfl

/-- `NaN` is absorbing on the right of a sum. -/
theorem add_nan_right (a : JSNum) : a.add .nan = .nan := by
  cases a <;> rfl

/-- The distance computed from a `NaN` haversine term is `NaN`. -/
theorem distance_of_nan_term :
    (JSNum.finite 6371000).mul ((JSNum.finite 2).mul
      (JSNum.atan2 JSNum.nan.sqrt ((JSNum.finite 1).sub .nan).sqrt)) = .nan := by
  simp [JSNum.sqrt, JSNum.atan2, JSNum.mul]

/-- C21 (as amended): `calculateDistance` and `isWithinGeofence` raise no error; when
a latitude or longitude argument is not finite (`NaN` or `±Infinity`),
`calculateDistance` returns `NaN` and `isWithinGeofence` returns `false`, whatever
the radius. -/
theorem C21_nonfinite_coordinate_nan (lat1 lon1 lat2 lon2 radiusMeters : JSNum)
    (h : lat1.isFinite = false ∨ lon1.isFinite = false ∨
      lat2.isFinite = false ∨ lon2.isFinite = false) :
    calculateDistanceJS lat1 lon1 lat2 lon2 = .nan ∧
      isWithinGeofenceJS lat1 lon1 lat2 lon2 radiusMeters = false := by
  have hterm :
      (((((toRadJS lat1).cos).mul ((toRadJS lat2).cos)).mul
        (((toRadJS (lon2.sub lon1)).div (.finite 2)).sin)).mul
          (((toRadJS (lon2.sub lon1)).div (.finite 2)).sin)) = .nan := by
    rcases h with h | h | h | h
    · rw [cos_of_not_finite _ (toRadJS_not_finite _ h)]
      simp [nan_mul_left]
    · rw [sin_of_not_finite _ (div_two_not_finite _ (toRadJS_not_finite _
        (sub_not_finite _ _ (Or.inr h))))]
      simp [mul_nan_right]
    · rw [cos_of_not_finite _ (toRadJS_not_finite _ h)]
      simp [nan_mul_left, mul_nan_right]
    · rw [sin_of_not_finite _ (div_two_not_finite _ (toRadJS_not_finite _
        (sub_not_finite _ _ (Or.inl h))))]
      simp [mul_nan_right]
  have hd : calculateDistanceJS lat1 lon1 lat2 lon2 = .nan := by
    unfold calculateDistanceJS
    simp only [hterm, add_nan_right, distance_of_nan_term]
  refine ⟨hd, ?_⟩
  unfold isWithinGeofenceJS
  simp only [hd]
  cases radiusMeters <;> rfl

/-- C21 (as amended) at a centre whose longitude is `Infinity`. -/
theorem C21_nonfinite_coordinate_nan_witness :
    ((JSNum.finite 40).isFinite = false ∨ (JSNum.finite (-74)).isFinite = false ∨
        (JSNum.finite 40).isFinite = false ∨ JSNum.posInf.isFinite = false) ∧
      calculateDistanceJS (.finite 40) (.finite (-74)) (.finite 40) .posInf = .nan ∧
      isWithinGeofenceJS (.finite 40) (.finite (-74)) (.finite 40) .posInf (.finite 50) =
        false :=
  ⟨Or.inr (Or.inr (Or.inr rfl)),
    C21_nonfinite_coordinate_nan (.finite 40) (.finite (-74)) (.finite 40) .posInf (.finite 50)
      (Or.inr (Or.inr (Or.inr rfl)))⟩

/-- C21 as stated fails: for the latitude `NaN` `calculateDistance` returns `NaN`, a
number and not an error, and `isWithinGeofence` returns the Boolean `false` of the
comparison `NaN <= 50`. -/
theorem C21_counterexample :
    calculateDistanceJS .nan (.finite 0) (.finite 0) (.finite 0) = .nan ∧
      (calculateDistanceJS .nan (.finite 0) (.finite 0) (.finite 0)).le (.finite 50) = false ∧
      isWithinGeofenceJS .nan (.finite 0) (.finite 0) (.finite 0) (.finite 50) = false := by
  have hd : calculateDistanceJS .nan (.finite 0) (.finite 0) (.finite 0) = .nan := by
    simp [calculateDistanceJS, toRadJS, JSNum.mul, JSNum.cos, JSNum.sub, JSNum.neg, JSNum.add,
      JSNum.sin, JSNum.div, JSNum.sqrt, JSNum.atan2]
  refine ⟨hd, ?_, ?_⟩
  · rw [hd]; rfl
  · unfold isWithinGeofenceJS
    simp only [hd]
    rfl

/-- On finite coordinates the function on numbers with special values returns the
finite real distance of `calculateDistance`. -/
theorem calculateDistanceJS_finite (lat1 lon1 lat2 lon2 : ℝ) :
    calculateDistanceJS (.finite lat1) (.finite lon1) (.finite lat2) (.finite lon2) =
      .finite (calculateDistance lat1 lon1 lat2 lon2) := by
  have hrad : ∀ x : ℝ, toRadJS (.finite x) = .finite (toRad x) := by
    intro x
    simp [toRadJS, toRad, JSNum.div, JSNum.mul]
  have hsub : ∀ x y : ℝ, (JSNum.finite x).sub (.finite y) = .finite (x - y) := by
    intro x y
    simp [JSNum.sub, JSNum.neg, JSNum.add, sub_eq_add_neg]
  have hhalf : ∀ x : ℝ, (JSNum.finite x).div (.finite 2) = .finite (x / 2) := by
    intro x
    simp [JSNum.div]
  have h0 := haversineTerm_nonneg lat1 lon1 lat2 lon2
  have h1 := haversineTerm_le_one lat1 lon1 lat2 lon2
  unfold calculateDistanceJS
  simp only [hrad, hsub, hhalf, JSNum.sin, JSNum.cos, JSNum.mul, JSNum.add]
  have hterm : Real.sin (toRad (lat2 - lat1) / 2) * Real.sin (toRad (lat2 - lat1) / 2) +
      Real.cos (toRad lat1) * Real.cos (toRad lat2) * Real.sin (toRad (lon2 - lon1) / 2) *
        Real.sin (toRad (lon2 - lon1) / 2) = haversineTerm lat1 lon1 lat2 lon2 := rfl
  rw [hterm]
  simp only [hsub, JSNum.sqrt, not_lt.mpr h0, not_lt.mpr (sub_nonneg.mpr h1), if_false,
    JSNum.atan2, JSNum.mul]
  rfl

/-! ### Low-compliance list -/

/-- Inserting a user into a list does not change the order of the users of one score. -/
theorem filter_orderedInsert (v : ℚ) (a : User) (l : List User) :
    (l.orderedInsert scoreLe a).filter (fun u => decide (complianceOrZero u = v)) =
      (a :: l).filter (fun u => decide (complianceOrZero u = v)) := by
  induction l with
  | nil => rfl
  | cons b rest ih =>
    rw [List.orderedInsert]
    split
    · rfl
    · rename_i hab
      have hlt : complianceOrZero b < complianceOrZero a := not_le.mp hab
      by_cases hb : complianceOrZero b = v
      · have ha : complianceOrZero a ≠ v := fun h => by rw [h, ← hb] at hlt; exact lt_irrefl _ hlt
        rw [List.filter_cons, ih]
        simp [List.filter_cons, hb, ha]
      · rw [List.filter_cons, ih]
        simp [List.filter_cons, hb]

/-- The sort is stable: the users of one score keep their order. -/
theorem filter_insertionSort (v : ℚ) (l : List User) :
    (l.insertionSort scoreLe).filter (fun u => decide (complianceOrZero u = v)) =
      l.filter (fun u => decide (complianceOrZero u = v)) := by
  induction l with
  | nil => rfl
  | cons a rest ih =>
    rw [List.insertionSort, filter_orderedInsert, List.filter_cons, ih, List.filter_cons]

/-- C27: the low-compliance list has at most 10 entries, all of them users of the
input with score (a missing score read as 0) below 80, in non-decreasing score order,
and every user below 80 that is left out has a score at least that of every entry. -/
theorem C27_low_compliance_list (users : List User) :
    (lowComplianceUsers users).length ≤ 10 ∧
      (∀ u ∈ lowComplianceUsers users, u ∈ users ∧ complianceOrZero u < 80) ∧
      (lowComplianceUsers users).Pairwise
        (fun a b => complianceOrZero a ≤ complianceOrZero b) ∧
      ∀ u ∈ users, complianceOrZero u < 80 → u ∉ lowComplianceUsers users →
        ∀ v ∈ lowComplianceUsers users, complianceOrZero v ≤ complianceOrZero u := by
  have hsorted : ((users.filter (fun u => decide (complianceOrZero u < 80))).insertionSort
      scoreLe).Pairwise scoreLe := List.sorted_insertionSort scoreLe _
  refine ⟨List.length_take_le _ _, ?_, ?_, ?_⟩
  · intro u hu
    have h1 := (List.mem_insertionSort scoreLe).mp (List.mem_of_mem_take hu)
    rw [List.mem_filter] at h1
    exact ⟨h1.1, by simpa using h1.2⟩
  · exact hsorted.sublist (List.take_sublist _ _)
  · intro u hu hlow hout v hv
    have hmem : u ∈ (users.filter (fun u => decide (complianceOrZero u < 80))).insertionSort
        scoreLe := by
      rw [List.mem_insertionSort, List.mem_filter]
      exact ⟨hu, by simpa using hlow⟩
    rw [← List.take_append_drop 10 ((users.filter
      (fun u => decide (complianceOrZero u < 80))).insertionSort scoreLe)] at hmem hsorted
    rcases List.mem_append.mp hmem with h | h
    · exact absurd h hout
    · exact (List.pairwise_append.mp hsorted).2.2 v hv u h

/-- C22 (as amended): the low-compliance list is ordered by score ascending; among
users with equal score it keeps the order of the input list; and two input lists that
are permutations of each other yield lists with the same sequence of scores. -/
theorem C22_low_compliance_order (users users' : List User) (hperm : users.Perm users') :
    (lowComplianceUsers users).Pairwise
        (fun a b => complianceOrZero a ≤ complianceOrZero b) ∧
      (∀ v : ℚ, List.IsPrefix
        ((lowComplianceUsers users).filter (fun u => decide (complianceOrZero u = v)))
        (users.filter (fun u => decide (complianceOrZero u = v) &&
          decide (complianceOrZero u < 80)))) ∧
      (lowComplianceUsers users).map complianceOrZero =
        (lowComplianceUsers users').map complianceOrZero := by
  have hsorted : ∀ l : List User, ((l.filter (fun u => decide (complianceOrZero u < 80))).insertionSort
      scoreLe).Pairwise scoreLe := fun l => List.sorted_insertionSort scoreLe _
  refine ⟨(hsorted users).sublist (List.take_sublist _ _), ?_, ?_⟩
  · intro v
    have h := List.IsPrefix.filter (fun u => decide (complianceOrZero u = v))
      (List.take_prefix 10 ((users.filter
        (fun u => decide (complianceOrZero u < 80))).insertionSort scoreLe))
    rw [filter_insertionSort, List.filter_filter] at h
    exact h
  · unfold lowComplianceUsers
    rw [List.map_take, List.map_take]
    congr 1
    apply List.eq_of_perm_of_sorted (r := fun (a b : ℚ) => a ≤ b)
    · exact ((List.perm_insertionSort scoreLe _).trans
        ((hperm.filter _).trans (List.perm_insertionSort scoreLe _).symm)).map _
    · exact List.pairwise_map.mpr (hsorted users)
    · exact List.pairwise_map.mpr (hsorted users')

/-- C22 (as amended) at two users of score 50 in both orders. -/
theorem C22_low_compliance_order_witness :
    [scoredUser "u2" (some 50), scoredUser "u1" (some 50)].Perm
        [scoredUser "u1" (some 50), scoredUser "u2" (some 50)] ∧
      ((lowComplianceUsers [scoredUser "u2" (some 50), scoredUser "u1" (some 50)]).Pairwise
          (fun a b => complianceOrZero a ≤ complianceOrZero b) ∧
        (∀ v : ℚ, List.IsPrefix
          ((lowComplianceUsers [scoredUser "u2" (some 50), scoredUser "u1" (some 50)]).filter
            (fun u => decide (complianceOrZero u = v)))
          ([scoredUser "u2" (some 50), scoredUser "u1" (some 50)].filter
            (fun u => decide (complianceOrZero u = v) && decide (complianceOrZero u < 80)))) ∧
        (lowComplianceUsers [scoredUser "u2" (some 50), scoredUser "u1" (some 50)]).map
            complianceOrZero =
          (lowComplianceUsers [scoredUser "u1" (some 50), scoredUser "u2" (some 50)]).map
            complianceOrZero) :=
  ⟨List.Perm.swap _ _ [],
    C22_low_compliance_order _ _ (List.Perm.swap _ _ [])⟩

/-- C22 as stated fails: two users of score 50 are listed in input order, `u2` before
`u1`, not by identifier; and the permuted input yields the other list. -/
theorem C22_counterexample :
    (lowComplianceUsers [scoredUser "u2" (some 50), scoredUser "u1" (some 50)]).map
        (fun u => u._id) = ["u2", "u1"] ∧
      (lowComplianceUsers [scoredUser "u1" (some 50), scoredUser "u2" (some 50)]).map
        (fun u => u._id) = ["u1", "u2"] ∧
      (lowComplianceUsers [scoredUser "u2" (some 50), scoredUser "u1" (some 50)]).map
        complianceOrZero = [50, 50] := by
  decide!

/-! ### Users without checklist -/

/-- C23 at a failing input: the cook `u1` of plant `p1` and a checklist for his lane,
sub-area and role at plant `p2`, with no plant filter. The assignment rule selects no
checklist for `u1`, so the count of the claim is 1; the code does not compare the
plants and reports 0. -/
theorem C23_cross_plant_user_not_counted :
    (getInsights crossPlantStore none "month" exampleNow).kpis.usersWithoutChecklist = 0 ∧
      assignedChecklists crossPlantStore exampleUser = [] ∧
      specUsersWithoutChecklist (crossPlantStore.users.filter (userQuery none))
        (crossPlantStore.checklists.filter (checklistQuery none)) = 1 := by
  decide!

/-- With a filter on one plant the figure of the code is the count under the
assignment rule: every user and every checklist in scope belongs to that plant. -/
theorem usersWithoutChecklist_eq_spec_of_plant (s : Store) (p : String)
    (hp : p ≠ "" ∧ p ≠ "all") :
    usersWithoutChecklist (s.users.filter (userQuery (some p)))
        (s.checklists.filter (checklistQuery (some p))) =
      specUsersWithoutChecklist (s.users.filter (userQuery (some p)))
        (s.checklists.filter (checklistQuery (some p))) := by
  unfold usersWithoutChecklist specUsersWithoutChecklist
  congr 1
  apply List.filter_congr
  intro u hu
  have hup : u.plantId = some p := by
    have := (List.mem_filter.mp hu).2
    simpa [userQuery, hp.1, hp.2] using this
  simp only []
  congr 2
  apply List.filter_congr
  intro c hc
  have hcp : c.plantId = p := by
    have := (List.mem_filter.mp hc).2
    simpa [checklistQuery, hp.1, hp.2] using this
  simp [assignmentQuery, hup, hcp]

/-! ### Idempotence of the score update -/

/-- The computed score depends on the store only through its checklists and events,
on the user only through id, lane, sub-area, role name and plant, and on the time
only through its day. -/
theorem averageCompliance_congr (s s' : Store) (user user' : User) (now now' : Int)
    (hc : s'.checklists = s.checklists) (ha : s'.activities = s.activities)
    (hid : user'._id = user._id) (hlane : user'.lane = user.lane)
    (hsub : user'.subArea = user.subArea) (hrole : user'.roleName = user.roleName)
    (hplant : user'.plantId = user.plantId) (hday : startOfDay now' = startOfDay now) :
    averageCompliance s' user' now' = averageCompliance s user now := by
  have hassigned : assignedChecklists s' user' = assignedChecklists s user := by
    unfold assignedChecklists
    rw [hc]
    apply List.filter_congr
    intro c _
    simp [assignmentQuery, hlane, hsub, hrole, hplant]
  have hbucket : ∀ c, bucketCompletions s' user' now' c = bucketCompletions s user now c := by
    intro c
    unfold bucketCompletions findCompletions
    rw [ha, hid, hday]
  rw [averageCompliance_eq, averageCompliance_eq, hassigned]
  simp only [hbucket]

/-- The computed score is always a finite number. -/
theorem averageCompliance_isSome (s : Store) (user : User) (now : Int) :
    ∃ score : ℤ, averageCompliance s user now = some score := by
  rw [averageCompliance_eq]
  split
  · exact ⟨0, rfl⟩
  · exact ⟨_, rfl⟩

/-- Replacing the documents of one id by a document of that id does not change
which document `findById` finds first, up to the replacement. -/
theorem find_replace (users : List User) (userId : ObjectId) (g : User → User)
    (hg : ∀ u, (g u)._id = u._id) :
    (users.map g).find? (fun u => u._id == userId) =
      (users.find? (fun u => u._id == userId)).map g := by
  rw [List.find?_map]
  congr 1
  apply congrArg (fun p => List.find? p users)
  funext u
  simp [Function.comp, hg u]

/-- A run on the same day gives the same result. -/
theorem updateUserCompliance_same_day (s : Store) (userId : ObjectId) (now now' : Int)
    (hday : startOfDay now' = startOfDay now) :
    updateUserCompliance s userId now' = updateUserCompliance s userId now := by
  unfold updateUserCompliance
  cases s.users.find? (fun u => u._id == userId) with
  | none => rfl
  | some user =>
    simp only [averageCompliance_congr s s user user now now' rfl rfl rfl rfl rfl rfl rfl hday]

/-- The result of a run does not depend on the score stored for the user. -/
theorem updateUserCompliance_withScore (s : Store) (userId : ObjectId) (now : Int)
    (score : Option ℚ) :
    updateUserCompliance (withScore s userId score) userId now =
      updateUserCompliance s userId now := by
  have hfind := find_replace s.users userId
    (fun u => if u._id == userId then { u with compliance := score } else u)
    (by
      intro u
      by_cases h : u._id = userId
      · simp [h]
      · simp [h])
  unfold updateUserCompliance
  cases hf : s.users.find? (fun u => u._id == userId) with
  | none =>
    have hnone : (withScore s userId score).users.find? (fun u => u._id == userId) = none := by
      simp only [withScore, hfind, hf, Option.map_none']
    rw [hnone]
    have hall := List.find?_eq_none.mp hf
    have hmap : s.users.map
        (fun u => if u._id == userId then { u with compliance := score } else u) = s.users := by
      conv_rhs => rw [← List.map_id s.users]
      apply List.map_congr_left
      intro u hu
      have := hall u hu
      simp only [Bool.not_eq_true] at this
      simp [this]
    simp only [withScore, hmap]
  | some user =>
    have huid : user._id = userId := by
      have := List.find?_some hf
      simpa using this
    have hsome : (withScore s userId score).users.find? (fun u => u._id == userId) =
        some { user with compliance := score } := by
      simp only [withScore, hfind, hf, Option.map_some', huid, beq_self_eq_true, if_true]
    rw [hsome]
    simp only []
    rw [averageCompliance_congr s (withScore s userId score) user { user with compliance := score }
      now now rfl rfl rfl rfl rfl rfl rfl rfl]
    obtain ⟨sc, hsc⟩ := averageCompliance_isSome s user now
    rw [hsc]
    simp only [saveUser, withScore, List.map_map]
    have hmap : s.users.map
        ((fun u => if u._id == user._id then { user with compliance := some (sc : ℚ) } else u) ∘
          fun u => if u._id == userId then { u with compliance := score } else u) =
        s.users.map
          (fun u => if u._id == user._id then { user with compliance := some (sc : ℚ) } else u) := by
      apply List.map_congr_left
      intro u _
      simp only [Function.comp]
      by_cases h : u._id = userId
      · simp [h, huid]
      · simp [h, huid]
    simp only [hmap]

/-- C24: `updateUserCompliance` is idempotent: a second run for the same actor on the
same day, with no new events, leaves the store as it is after the first run; and the
result of a run does not depend on the score stored before. -/
theorem C24_update_idempotent (s : Store) (userId : ObjectId) (now now' : Int)
    (score : Option ℚ) (hday : startOfDay now' = startOfDay now) :
    storeAfterUpdate (storeAfterUpdate s userId now) userId now' =
        storeAfterUpdate s userId now ∧
      updateUserCompliance (withScore s userId score) userId now =
        updateUserCompliance s userId now := by
  refine ⟨?_, updateUserCompliance_withScore s userId now score⟩
  cases hrun : updateUserCompliance s userId now with
  | error e =>
    have h1 : storeAfterUpdate s userId now = s := by
      unfold storeAfterUpdate; rw [hrun]
    rw [h1]
    unfold storeAfterUpdate
    rw [updateUserCompliance_same_day s userId now now' hday, hrun]
  | ok s1 =>
    have h1 : storeAfterUpdate s userId now = s1 := by
      unfold storeAfterUpdate; rw [hrun]
    rw [h1]
    have h2 : updateUserCompliance s1 userId now' = .ok s1 := by
      unfold updateUserCompliance at hrun
      cases hf : s.users.find? (fun u => u._id == userId) with
      | none =>
        rw [hf] at hrun
        have hs : s1 = s := by
          injection hrun with h; exact h.symm
        rw [hs]
        unfold updateUserCompliance
        rw [hf]
      | some user =>
        rw [hf] at hrun
        simp only [] at hrun
        have huid : user._id = userId := by
          have := List.find?_some hf
          simpa using this
        obtain ⟨sc, hsc⟩ := averageCompliance_isSome s user now
        rw [hsc] at hrun
        simp only [saveUser] at hrun
        by_cases hrange : (0 : ℚ) ≤ (sc : ℚ) ∧ (sc : ℚ) ≤ 100
        · rw [if_pos hrange] at hrun
          injection hrun with hs
          subst hs
          have hfind := find_replace s.users userId
            (fun u => if u._id == user._id then { user with compliance := some (sc : ℚ) } else u)
            (by
              intro u
              by_cases h : u._id = user._id
              · simp [h]
              · simp [h])
          unfold updateUserCompliance
          simp only [hfind, hf, Option.map_some', beq_self_eq_true, if_true]
          have hcongr : averageCompliance
              ⟨s.users.map (fun u =>
                if u._id == user._id then { user with compliance := some (sc : ℚ) } else u),
                s.checklists, s.activities, s.plants⟩
              { user with compliance := some (sc : ℚ) } now' = averageCompliance s user now :=
            averageCompliance_congr _ _ _ _ _ _ rfl rfl rfl rfl rfl rfl rfl hday
          rw [hcongr, hsc]
          simp only [saveUser, if_pos hrange, List.map_map]
          have hmap : s.users.map
              ((fun u => if u._id == user._id then { user with compliance := some (sc : ℚ) }
                else u) ∘
                fun u => if u._id == user._id then { user with compliance := some (sc : ℚ) }
                else u) =
              s.users.map
                (fun u => if u._id == user._id then { user with compliance := some (sc : ℚ) }
                  else u) := by
            apply List.map_congr_left
            intro u _
            simp only [Function.comp]
            by_cases h : u._id = user._id
            · simp [h]
            · simp [h]
          rw [hmap]
        · rw [if_neg hrange] at hrun
          exact absurd hrun (by simp)
    unfold storeAfterUpdate
    rw [h2]

/-- C24 at the store with one completed activity out of three, twice on the example day. -/
theorem C24_update_idempotent_witness :
    startOfDay (exampleNow + 1000) = startOfDay exampleNow ∧
      storeAfterUpdate (storeAfterUpdate thirdStore "u1" exampleNow) "u1" (exampleNow + 1000) =
        storeAfterUpdate thirdStore "u1" exampleNow ∧
      updateUserCompliance (withScore thirdStore "u1" (some 77)) "u1" exampleNow =
        updateUserCompliance thirdStore "u1" exampleNow :=
  ⟨by decide, C24_update_idempotent thirdStore "u1" exampleNow (exampleNow + 1000) (some 77)
    (by decide)⟩

end Oplist
